import Mathlib

/-!
Verification development for the gravity particle-simulation server
(`server-physics.js` in its two variants, and the websocket server wiring).

JavaScript numbers are modelled two ways:
* `ℚ` with total field operations (division by zero yields 0) — the idealized
  real-number semantics, used for the structural and protocol claims that do
  not depend on non-finite values;
* `JsNum` (`nan` or a finite rational) — a semantics that tracks non-finite
  values: every arithmetic operation propagates `nan`, division by zero
  produces `nan` (in IEEE terms 0/0 is NaN and x/0 for x ≠ 0 is ±∞; both are
  non-finite and are collapsed into the single marker `nan` here, which is
  exact on the evaluation paths below, where only 0/0 occurs), and every
  comparison involving `nan` is false, as in JavaScript.

The transcendental library functions (`Math.sqrt`, `Math.cos`, `Math.sin`,
`Math.pow`) and `Math.PI` are abstract parameters, collected in `JSOps`
together with the comparison/min/max/floor/truthiness primitives; random
draws `Math.random()` are an explicit stream `rnd : ℕ → ℚ` consumed at an
explicitly threaded index, mirroring the evaluation order of the source.
-/

namespace Gravity

/-- A JavaScript number that is either non-finite (`nan`) or a finite
rational. -/
inductive JsNum : Type where
  | nan : JsNum
  | fin (q : ℚ) : JsNum
deriving DecidableEq, Repr

instance : Add JsNum :=
  ⟨fun a b => match a, b with
    | .fin x, .fin y => .fin (x + y)
    | _, _ => .nan⟩

instance : Sub JsNum :=
  ⟨fun a b => match a, b with
    | .fin x, .fin y => .fin (x - y)
    | _, _ => .nan⟩

instance : Mul JsNum :=
  ⟨fun a b => match a, b with
    | .fin x, .fin y => .fin (x * y)
    | _, _ => .nan⟩

instance : Neg JsNum :=
  ⟨fun a => match a with
    | .fin x => .fin (-x)
    | .nan => .nan⟩

/-- JavaScript division: 0/0 is NaN and x/0 (x ≠ 0) is ±∞; both are
non-finite, collapsed to `nan`. -/
instance : Div JsNum :=
  ⟨fun a b => match a, b with
    | .fin x, .fin y => if y = 0 then .nan else .fin (x / y)
    | _, _ => .nan⟩

/-- The library/primitive operations a simulation step needs, over an
abstract number type `β`.  `ofRat` injects the (always finite) literals and
configuration values; `sqrt`/`powf` stand for `Math.sqrt`/`Math.pow`;
`ltb a b` is the JavaScript comparison `a < b` (false whenever an operand is
NaN); `minf`/`maxf` are `Math.min`/`Math.max`; `floorf` is `Math.floor`;
`absf` is `Math.abs`; `truthy` is the boolean coercion used by `||` and `if`
(false exactly for 0, NaN and undefined); `piv` is `Math.PI`. -/
structure JSOps (β : Type) where
  ofRat : ℚ → β
  sqrt : β → β
  cosf : β → β
  sinf : β → β
  powf : β → β → β
  floorf : β → β
  absf : β → β
  ltb : β → β → Bool
  minf : β → β → β
  maxf : β → β → β
  truthy : β → Bool
  piv : β

/-- Idealized semantics over `ℚ`: `Math.sqrt`, `Math.pow`, `Math.PI` are
abstract parameters (`sq`, `pw`, `piq`), the rest are the exact rational
operations.  Division by zero yields 0 (Lean's field convention) — the
claims proved against this instance do not depend on that case. -/
def ratOps (sq cs sn : ℚ → ℚ) (pw : ℚ → ℚ → ℚ) (piq : ℚ) : JSOps ℚ where
  ofRat := id
  sqrt := sq
  cosf := cs
  sinf := sn
  powf := pw
  floorf := fun q => (⌊q⌋ : ℚ)
  absf := fun q => |q|
  ltb := fun a b => decide (a < b)
  minf := min
  maxf := max
  truthy := fun q => decide (q ≠ 0)
  piv := piq

/-- NaN-tracking semantics over `JsNum`.  `Math.pow(x, 0) = 1` for every x
(NaN included), otherwise NaN propagates; `Math.min`/`Math.max` return NaN
if any argument is NaN; comparisons with NaN are false. -/
def nanOps (sq cs sn : ℚ → ℚ) (pw : ℚ → ℚ → ℚ) (piq : ℚ) : JSOps JsNum where
  ofRat := .fin
  sqrt := fun a => match a with
    | .nan => .nan
    | .fin q => if q < 0 then .nan else .fin (sq q)
  cosf := fun a => match a with
    | .nan => .nan
    | .fin q => .fin (cs q)
  sinf := fun a => match a with
    | .nan => .nan
    | .fin q => .fin (sn q)
  powf := fun a b => match a, b with
    | _, .fin e => if e = 0 then .fin 1 else
        match a with
        | .nan => .nan
        | .fin x => .fin (pw x e)
    | _, .nan => .nan
  floorf := fun a => match a with
    | .nan => .nan
    | .fin q => .fin (⌊q⌋ : ℚ)
  absf := fun a => match a with
    | .nan => .nan
    | .fin q => .fin |q|
  ltb := fun a b => match a, b with
    | .fin x, .fin y => decide (x < y)
    | _, _ => false
  minf := fun a b => match a, b with
    | .fin x, .fin y => .fin (min x y)
    | _, _ => .nan
  maxf := fun a b => match a, b with
    | .fin x, .fin y => .fin (max x y)
    | _, _ => .nan
  truthy := fun a => match a with
    | .nan => false
    | .fin q => decide (q ≠ 0)
  piv := .fin piq

/-- JavaScript `x || d` for a numeric field that may be absent: the default
is taken when the field is absent (`undefined`) or when its value is falsy
(0). -/
def jsOrQ (v : Option ℚ) (d : ℚ) : ℚ :=
  match v with
  | none => d
  | some x => if x = 0 then d else x

/-- JavaScript `x || d` for a count field (natural number). -/
def jsOrNat (v : Option ℕ) (d : ℕ) : ℕ :=
  match v with
  | none => d
  | some x => if x = 0 then d else x

/-! ## Simulation data model (`server-physics.js`, both variants) -/

/-- `this.options` after the `ServerPhysicsSimulation` constructor. -/
structure SimOptions : Type where
  particleCount : ℕ
  particleSpread : ℚ
  initialSpeed : ℚ
  velocityDamping : ℚ
  gravityStrength : ℚ
  updateRate : ℚ
  maxPlayers : ℚ
  prismRadius : ℚ
deriving DecidableEq, Repr

/-- The `options` argument of the constructor: each field may be absent. -/
structure OptionsIn : Type where
  particleCount : Option ℕ := none
  particleSpread : Option ℚ := none
  initialSpeed : Option ℚ := none
  velocityDamping : Option ℚ := none
  gravityStrength : Option ℚ := none
  updateRate : Option ℚ := none
  maxPlayers : Option ℚ := none
  prismRadius : Option ℚ := none
deriving DecidableEq, Repr

/-- The constructor's option defaulting (`options.particleCount || 2000`,
etc.). -/
def mkOptions (o : OptionsIn) : SimOptions where
  particleCount := jsOrNat o.particleCount 2000
  particleSpread := jsOrQ o.particleSpread 800
  initialSpeed := jsOrQ o.initialSpeed 5
  velocityDamping := jsOrQ o.velocityDamping (98/100)
  gravityStrength := jsOrQ o.gravityStrength 1
  updateRate := jsOrQ o.updateRate 30
  maxPlayers := jsOrQ o.maxPlayers 20
  prismRadius := jsOrQ o.prismRadius 50

/-- A stored player record.  `addPlayer` creates records with exactly the
five fields `position`, `gravityStrength`, `prismRadius`, `lensingStrength`,
`prismStrength`; the `prismDispersion` property only exists on a record if a
later `updatePlayerParams` added it, hence it is an `Option` here (`none` =
the property is absent, i.e. `undefined`). -/
structure Player : Type where
  posX : ℚ
  posY : ℚ
  gravityStrength : ℚ
  prismRadius : ℚ
  lensingStrength : ℚ
  prismStrength : ℚ
  prismDispersion : Option ℚ
deriving DecidableEq, Repr

/-- The `initialParams` argument of `addPlayer`: every field optional. -/
structure PlayerInit : Type where
  position : Option (ℚ × ℚ) := none
  gravityStrength : Option ℚ := none
  prismRadius : Option ℚ := none
  lensingStrength : Option ℚ := none
  prismStrength : Option ℚ := none
  prismDispersion : Option ℚ := none
deriving DecidableEq, Repr

/-- A partial update record as passed to `updatePlayerParams`
(`Object.assign` source): present fields overwrite, absent fields do not. -/
structure PlayerParams : Type where
  position : Option (ℚ × ℚ) := none
  gravityStrength : Option ℚ := none
  prismRadius : Option ℚ := none
  lensingStrength : Option ℚ := none
  prismStrength : Option ℚ := none
  prismDispersion : Option ℚ := none
deriving DecidableEq, Repr

/-- `Object.assign(player, params)`: field-wise overwrite by the present
fields (no truthiness test — `Object.assign` copies 0 as well). -/
def mergeParams (p : Player) (u : PlayerParams) : Player where
  posX := match u.position with | some xy => xy.1 | none => p.posX
  posY := match u.position with | some xy => xy.2 | none => p.posY
  gravityStrength := (u.gravityStrength).getD p.gravityStrength
  prismRadius := (u.prismRadius).getD p.prismRadius
  lensingStrength := (u.lensingStrength).getD p.lensingStrength
  prismStrength := (u.prismStrength).getD p.prismStrength
  prismDispersion := match u.prismDispersion with
    | some v => some v
    | none => p.prismDispersion

/-! The `this.players` object maps integer-like keys to records.  JavaScript
iterates integer-like keys in ascending numeric order regardless of
insertion order, so the object is modelled as an association list kept
sorted by key: property assignment is `setKey`, `delete` is `eraseKey`,
property read is `lookupKey`, and `for..in` / `Object.keys` order is the
list order. -/

/-- Property assignment `obj[k] = v` on an integer-keyed object. -/
def setKey {α : Type} : List (ℕ × α) → ℕ → α → List (ℕ × α)
  | [], k, v => [(k, v)]
  | (k', v') :: rest, k, v =>
    if k = k' then (k, v) :: rest
    else if k < k' then (k, v) :: (k', v') :: rest
    else (k', v') :: setKey rest k v

/-- Property read `obj[k]` (`none` = `undefined`). -/
def lookupKey {α : Type} : List (ℕ × α) → ℕ → Option α
  | [], _ => none
  | (k', v') :: rest, k => if k = k' then some v' else lookupKey rest k

/-- Property deletion `delete obj[k]`. -/
def eraseKey {α : Type} : List (ℕ × α) → ℕ → List (ℕ × α)
  | [], _ => []
  | (k', v') :: rest, k =>
    if k = k' then eraseKey rest k else (k', v') :: eraseKey rest k

/-- `arr[i]` on a JavaScript array (an out-of-range read yields
`undefined`, collapsed to the falsy default `d` — no in-scope use reads
out of range). -/
def jsGet {β : Type} (l : List β) (i : ℕ) (d : β) : β := l.getD i d

/-- `timeScale` as computed at the top of `updatePhysics` in both variants:
`Math.min(deltaTime / (1000/60), 2.0)`. -/
def timeScale (deltaTime : ℚ) : ℚ :=
  min (deltaTime / (1000 / 60)) 2

/-- The mutable state of a `ServerPhysicsSimulation`.  `colors` and
`particleVirtualColors` exist only in the color-modulated variant
(part_008); the simple variant (part_007) never touches them.
`particleVirtualColors = none` models the field being still unset
(it is created lazily inside `updatePhysics`). -/
structure SimState (β : Type) : Type where
  options : SimOptions
  particles : List (β × β)
  velocities : List (β × β)
  colors : List (β × β × β)
  players : List (ℕ × Player)
  simulationTime : ℚ
  running : Bool
  particleVirtualColors : Option (List β)
deriving DecidableEq, Repr

/-- `addPlayer(playerId, initialParams = {})`: builds the record with the
`||` defaults of the source and stores it; returns the stored record.
Note the constructed record has no `prismDispersion` property, and a
provided `initialParams.prismDispersion` is not copied. -/
def addPlayer {β : Type} (playerId : ℕ) (initialParams : PlayerInit)
    (s : SimState β) : Player × SimState β :=
  let rec0 : Player :=
    { posX := ((initialParams.position).getD (0, 0)).1
      posY := ((initialParams.position).getD (0, 0)).2
      gravityStrength :=
        jsOrQ initialParams.gravityStrength (s.options.gravityStrength * (3/2))
      prismRadius := jsOrQ initialParams.prismRadius s.options.prismRadius
      lensingStrength := jsOrQ initialParams.lensingStrength 3
      prismStrength := jsOrQ initialParams.prismStrength 2
      prismDispersion := none }
  (rec0, { s with players := setKey s.players playerId rec0 })

/-- `removePlayer(playerId)`: deletes the record if present, else a no-op
returning `false`. -/
def removePlayer {β : Type} (playerId : ℕ) (s : SimState β) :
    Bool × SimState β :=
  match lookupKey s.players playerId with
  | some _ => (true, { s with players := eraseKey s.players playerId })
  | none => (false, s)

/-- `updatePlayerPosition(playerId, position)`. -/
def updatePlayerPosition {β : Type} (playerId : ℕ) (position : ℚ × ℚ)
    (s : SimState β) : Bool × SimState β :=
  match lookupKey s.players playerId with
  | some p =>
      let p' : Player := { p with posX := position.1, posY := position.2 }
      (true, { s with players := setKey s.players playerId p' })
  | none => (false, s)

/-- `updatePlayerParams(playerId, params)` (`Object.assign` merge). -/
def updatePlayerParams {β : Type} (playerId : ℕ) (params : PlayerParams)
    (s : SimState β) : Bool × SimState β :=
  match lookupKey s.players playerId with
  | some p =>
      (true, { s with players := setKey s.players playerId (mergeParams p params) })
  | none => (false, s)

/-! ## Particle initialization

`initParticles` of the two variants.  `rnd : ℕ → ℚ` is the stream of
`Math.random()` results (each in `[0,1)`), consumed at the explicitly
threaded index `k` in the exact evaluation order of the source. -/

/-- One iteration of the `initParticles` loop of the simple variant
(part_007): position by the 70/30 radial policy, tangential (or, near the
center, uniform random) velocity.  Returns position, velocity and the next
draw index. -/
def initParticle007 {β : Type} [Add β] [Sub β] [Mul β] [Div β] [Neg β]
    (ops : JSOps β) (rnd : ℕ → ℚ) (opts : SimOptions) (k : ℕ) :
    (β × β) × (β × β) × ℕ :=
  let radius : β :=
    if ops.ltb (ops.ofRat (rnd k)) (ops.ofRat (7/10)) then
      ops.ofRat opts.prismRadius * ops.ofRat (1/2) +
        ops.ofRat opts.particleSpread *
          ops.sqrt (ops.ofRat (rnd (k+1)) * ops.ofRat (8/10))
    else
      ops.ofRat opts.prismRadius * ops.sqrt (ops.ofRat (rnd (k+1)))
  let theta : β := ops.ofRat (rnd (k+2)) * ops.piv * ops.ofRat 2
  let px : β := radius * ops.cosf theta
  let py : β := radius * ops.sinf theta
  if ops.ltb (ops.ofRat (1/10)) radius then
    let perpX := -py / radius
    let perpY := px / radius
    let speed := ops.ofRat opts.initialSpeed *
      (ops.ofRat (8/10) + ops.ofRat (rnd (k+3)) * ops.ofRat (4/10))
    ((px, py), (perpX * speed, perpY * speed), k + 4)
  else
    let vx := ops.ofRat (rnd (k+3)) * ops.ofRat opts.initialSpeed -
      ops.ofRat opts.initialSpeed / ops.ofRat 2
    let vy := ops.ofRat (rnd (k+4)) * ops.ofRat opts.initialSpeed -
      ops.ofRat opts.initialSpeed / ops.ofRat 2
    ((px, py), (vx, vy), k + 5)

/-- The `initParticles` loop of the simple variant, `n` iterations. -/
def initLoop007 {β : Type} [Add β] [Sub β] [Mul β] [Div β] [Neg β]
    (ops : JSOps β) (rnd : ℕ → ℚ) (opts : SimOptions) :
    ℕ → ℕ → (List (β × β) × List (β × β)) × ℕ
  | 0, k => (([], []), k)
  | n + 1, k =>
      let (p, v, k') := initParticle007 ops rnd opts k
      let ((ps, vs), k'') := initLoop007 ops rnd opts n k'
      ((p :: ps, v :: vs), k'')

/-- `initParticles()` of the simple variant (part_007): re-creates the
position and velocity arrays with `options.particleCount` entries. -/
def initParticles007 {β : Type} [Add β] [Sub β] [Mul β] [Div β] [Neg β]
    (ops : JSOps β) (rnd : ℕ → ℚ) (k : ℕ) (s : SimState β) :
    SimState β × ℕ :=
  let ((ps, vs), k') := initLoop007 ops rnd s.options s.options.particleCount k
  ({ s with particles := ps, velocities := vs }, k')

/-- One iteration of the `initParticles` loop of the color-modulated
variant (part_008): same position/velocity policy, plus a random RGB
color. -/
def initParticle008 {β : Type} [Add β] [Sub β] [Mul β] [Div β] [Neg β]
    (ops : JSOps β) (rnd : ℕ → ℚ) (opts : SimOptions) (k : ℕ) :
    (β × β) × (β × β) × (β × β × β) × ℕ :=
  let (p, v, k') := initParticle007 ops rnd opts k
  let color : β × β × β :=
    (ops.ofRat (rnd k'), ops.ofRat (rnd (k'+1)), ops.ofRat (rnd (k'+2)))
  (p, v, color, k' + 3)

/-- The `initParticles` loop of the color-modulated variant. -/
def initLoop008 {β : Type} [Add β] [Sub β] [Mul β] [Div β] [Neg β]
    (ops : JSOps β) (rnd : ℕ → ℚ) (opts : SimOptions) :
    ℕ → ℕ → (List (β × β) × List (β × β) × List (β × β × β)) × ℕ
  | 0, k => (([], [], []), k)
  | n + 1, k =>
      let (p, v, c, k') := initParticle008 ops rnd opts k
      let ((ps, vs, cs), k'') := initLoop008 ops rnd opts n k'
      ((p :: ps, v :: vs, c :: cs), k'')

/-- `initParticles()` of the color-modulated variant (part_008): re-creates
the position, velocity and color arrays with `options.particleCount`
entries.  Note it does not reset `particleVirtualColors`. -/
def initParticles008 {β : Type} [Add β] [Sub β] [Mul β] [Div β] [Neg β]
    (ops : JSOps β) (rnd : ℕ → ℚ) (k : ℕ) (s : SimState β) :
    SimState β × ℕ :=
  let ((ps, vs, cs), k') := initLoop008 ops rnd s.options s.options.particleCount k
  ({ s with particles := ps, velocities := vs, colors := cs }, k')

/-! ## The physics step (`updatePhysics`), both variants -/

/-- The weak central attraction toward the origin (identical in both
variants): `0.01 * gravityStrength / d² * timeScale`, guarded by
`centerDist > 1.0`. -/
def centralGravity {β : Type} [Add β] [Sub β] [Mul β] [Div β] [Neg β]
    (ops : JSOps β) (opts : SimOptions) (p v : β × β) (ts : β) : β × β :=
  let toCenterX := -p.1
  let toCenterY := -p.2
  let centerDist := ops.sqrt (toCenterX * toCenterX + toCenterY * toCenterY)
  if ops.ltb (ops.ofRat 1) centerDist then
    let centralForce := ops.ofRat (1/100) * ops.ofRat opts.gravityStrength /
      (centerDist * centerDist) * ts
    (v.1 + toCenterX / centerDist * centralForce,
     v.2 + toCenterY / centerDist * centralForce)
  else v

/-- The `forEach` color-dispersion block of the color-modulated variant
(part_008, first per-player pass).  Note `dirX`/`dirY` divide by
`centerDist` with no guard against `centerDist = 0`. -/
def colorPrismForce {β : Type} [Add β] [Sub β] [Mul β] [Div β] [Neg β]
    (ops : JSOps β) (rnd : ℕ → ℚ) (pl : Player) (p : β × β)
    (col : β × β × β) (v : β × β) (ts : β) (k : ℕ) : (β × β) × ℕ :=
  let toCenterX := ops.ofRat pl.posX - p.1
  let toCenterY := ops.ofRat pl.posY - p.2
  let centerDist := ops.sqrt (toCenterX * toCenterX + toCenterY * toCenterY)
  if ops.ltb centerDist (ops.ofRat pl.prismRadius * ops.ofRat (3/2)) then
    let dirX := toCenterX / centerDist
    let dirY := toCenterY / centerDist
    let dispersionForce :=
      if ops.ltb centerDist (ops.ofRat pl.prismRadius) then
        let normalizedDist := centerDist / ops.ofRat pl.prismRadius
        ops.ofRat pl.prismStrength * ops.ofRat 2 * normalizedDist
      else
        let outsideDistance := centerDist - ops.ofRat pl.prismRadius
        let falloff := ops.maxf (ops.ofRat 0)
          (ops.ofRat 1 - outsideDistance / (ops.ofRat pl.prismRadius * ops.ofRat (1/2)))
        Neg.neg (ops.ofRat pl.prismStrength) * ops.ofRat (1/2) * falloff
    let dispersionMultiplier := ops.ofRat pl.lensingStrength * ops.ofRat (3/2)
    let rForce := dispersionForce * (ops.ofRat 1 - dispersionMultiplier * ops.ofRat (8/10))
    let gForce := dispersionForce
    let bForce := dispersionForce * (ops.ofRat 1 + dispersionMultiplier * ops.ofRat 1)
    let redDominance := col.1 / ops.maxf (ops.ofRat (1/100)) (ops.maxf col.2.1 col.2.2)
    let greenDominance := col.2.1 / ops.maxf (ops.ofRat (1/100)) (ops.maxf col.1 col.2.2)
    let blueDominance := col.2.2 / ops.maxf (ops.ofRat (1/100)) (ops.maxf col.1 col.2.1)
    let dpk : β × β × β × ℕ :=
      if ops.ltb (ops.ofRat (13/10)) redDominance then
        (rForce * ops.ofRat (3/10),
         -dirY * ops.ofRat (6/10) * ops.ofRat pl.lensingStrength,
         dirX * ops.ofRat (6/10) * ops.ofRat pl.lensingStrength, k)
      else if ops.ltb (ops.ofRat (13/10)) greenDominance then
        (gForce * ops.ofRat (6/10),
         (-dirY * ops.ofRat (7/10) + dirX * ops.ofRat (3/10)) *
           ops.ofRat (3/10) * ops.ofRat pl.lensingStrength,
         (dirX * ops.ofRat (7/10) + dirY * ops.ofRat (3/10)) *
           ops.ofRat (3/10) * ops.ofRat pl.lensingStrength, k)
      else if ops.ltb (ops.ofRat (13/10)) blueDominance then
        (bForce * ops.ofRat (3/2),
         dirY * ops.ofRat (7/10) * ops.ofRat pl.lensingStrength,
         -dirX * ops.ofRat (7/10) * ops.ofRat pl.lensingStrength, k)
      else
        let colorSum := col.1 + col.2.1 + col.2.2
        let dominantForce := (col.1 * rForce + col.2.1 * gForce + col.2.2 * bForce) /
          ops.maxf (ops.ofRat (1/10)) colorSum
        let perpFactor := ops.ofRat (3/10) * ops.ofRat pl.lensingStrength *
          (ops.ofRat (rnd k) - ops.ofRat (1/2))
        (dominantForce, dirY * perpFactor, -dirX * perpFactor, k + 1)
    let dominantForce := dpk.1
    let perpX := dpk.2.1
    let perpY := dpk.2.2.1
    let k1 := dpk.2.2.2
    let jitter := (ops.ofRat (rnd k1) * ops.ofRat (1/2) - ops.ofRat (1/4)) *
      dispersionForce * ops.ofRat pl.lensingStrength
    ((v.1 - (dirX * (dominantForce + jitter) - perpX) * ts,
      v.2 - (dirY * (dominantForce + jitter) - perpY) * ts), k1 + 1)
  else (v, k)

/-- Build the lazily created `particleVirtualColors` array: one of six
color classes, `Math.floor(Math.random() * 6)`, for each of `n`
particles. -/
def vcBuild {β : Type} [Add β] [Sub β] [Mul β] [Div β] [Neg β]
    (ops : JSOps β) (rnd : ℕ → ℚ) : ℕ → ℕ → List β × ℕ
  | 0, k => ([], k)
  | n + 1, k =>
      let f := ops.floorf (ops.ofRat (rnd k) * ops.ofRat 6)
      let (rest, k') := vcBuild ops rnd n (k + 1)
      (f :: rest, k')

/-- `particleVirtualColors[i] || (particleVirtualColors[i] = Math.floor(Math.random()*6))`:
read the stored class; when it is falsy (0, or `undefined` — an
out-of-range index, modelled as the falsy default 0) draw a fresh class and
store it. -/
def vcFetch {β : Type} [Add β] [Sub β] [Mul β] [Div β] [Neg β]
    (ops : JSOps β) (rnd : ℕ → ℚ) (vc : List β) (i k : ℕ) : β × List β × ℕ :=
  let stored := jsGet vc i (ops.ofRat 0)
  if ops.truthy stored then (stored, vc, k)
  else
    let f := ops.floorf (ops.ofRat (rnd k) * ops.ofRat 6)
    (f, vc.set i f, k + 1)

/-- The per-player gravity/lensing/prism pass of the color-modulated
variant (part_008, second per-player loop), acting on particle `i` of `n`.
Inside the prism the force is modulated by the particle's lazily assigned
virtual color class. -/
def playerForce008 {β : Type} [Add β] [Sub β] [Mul β] [Div β] [Neg β]
    (ops : JSOps β) (rnd : ℕ → ℚ) (n : ℕ) (pl : Player) (i : ℕ)
    (p v : β × β) (vc : Option (List β)) (ts : β) (k : ℕ) :
    (β × β) × Option (List β) × ℕ :=
  let toPlayerX := ops.ofRat pl.posX - p.1
  let toPlayerY := ops.ofRat pl.posY - p.2
  let playerDist := ops.sqrt (toPlayerX * toPlayerX + toPlayerY * toPlayerY)
  if ops.ltb (ops.ofRat (1/10)) playerDist then
    let gravityForce := ops.ofRat pl.gravityStrength /
      ops.maxf (playerDist * ops.ofRat (1/10)) (ops.ofRat (1/2)) * ts
    let lensingForce := ops.ofRat pl.lensingStrength /
      ops.maxf (playerDist * ops.ofRat (1/20)) (ops.ofRat (1/10)) * ts
    let totalForce := gravityForce + lensingForce
    let norm := ops.ofRat 1 / playerDist
    let vx1 := v.1 + toPlayerX * norm * totalForce
    let vy1 := v.2 + toPlayerY * norm * totalForce
    if ops.ltb playerDist (ops.ofRat pl.prismRadius * ops.ofRat (3/2)) then
      if ops.ltb playerDist (ops.ofRat pl.prismRadius) then
        let normalizedDist := playerDist / ops.ofRat pl.prismRadius
        let strength := ops.ofRat (if pl.prismStrength = 0 then 2 else pl.prismStrength)
        let lk : List β × ℕ := match vc with
          | some l => (l, k)
          | none => vcBuild ops rnd n k
        let fetched := vcFetch ops rnd lk.1 i lk.2
        let virtualColor := fetched.1
        let l1 := fetched.2.1
        let k1 := fetched.2.2
        let dispersionStrength := ops.ofRat (jsOrQ pl.prismDispersion 3)
        let cpk : β × β × β × ℕ :=
          if ops.ltb virtualColor (ops.ofRat 2) then
            (ops.ofRat (7/10) - dispersionStrength * ops.ofRat (3/20),
             ops.ofRat (6/10) * dispersionStrength * ts, ops.ofRat (-1), k1)
          else if ops.ltb virtualColor (ops.ofRat 4) then
            (ops.ofRat 1, ops.ofRat (3/10) * dispersionStrength * ts,
             if ops.ltb (ops.ofRat (rnd k1)) (ops.ofRat (1/2)) then ops.ofRat (-1)
             else ops.ofRat 1,
             k1 + 1)
          else
            (ops.ofRat (13/10) + dispersionStrength * ops.ofRat (1/5),
             ops.ofRat (7/10) * dispersionStrength * ts, ops.ofRat 1, k1)
        let colorFactor := cpk.1
        let perpFactor := cpk.2.1
        let perpSign := cpk.2.2.1
        let k2 := cpk.2.2.2
        let effectMultiplier := strength * ops.ofRat (3/2)
        let prismForce := normalizedDist * ts * effectMultiplier * colorFactor
        let vx2 := vx1 - toPlayerX * norm * prismForce
        let vy2 := vy1 - toPlayerY * norm * prismForce
        let perpX := -toPlayerY * norm * perpSign
        let perpY := toPlayerX * norm * perpSign
        let perpStrength := ops.absf prismForce * perpFactor * effectMultiplier
        let vx3 := vx2 + perpX * perpStrength
        let vy3 := vy2 + perpY * perpStrength
        let jitterStrength := prismForce * ops.ofRat (2/5) * dispersionStrength
        let vx4 := vx3 + (ops.ofRat (rnd k2) - ops.ofRat (1/2)) * jitterStrength
        let vy4 := vy3 + (ops.ofRat (rnd (k2+1)) - ops.ofRat (1/2)) * jitterStrength
        ((vx4, vy4), some l1, k2 + 2)
      else
        let outsideDistance := playerDist - ops.ofRat pl.prismRadius
        let falloff := ops.maxf (ops.ofRat 0)
          (ops.ofRat 1 - outsideDistance / (ops.ofRat pl.prismRadius * ops.ofRat (1/2)))
        let prismForce := -ops.ofRat (1/10) * ops.ofRat pl.prismStrength * falloff * ts
        let vx2 := vx1 + toPlayerX * norm * prismForce *
          (ops.ofRat (8/10) + ops.ofRat (rnd k) * ops.ofRat (4/10))
        let vy2 := vy1 + toPlayerY * norm * prismForce *
          (ops.ofRat (8/10) + ops.ofRat (rnd (k+1)) * ops.ofRat (4/10))
        ((vx2, vy2), vc, k + 2)
    else ((vx1, vy1), vc, k)
  else (v, vc, k)

/-- The per-player gravity/lensing/prism pass of the simple variant
(part_007): same gravity and lensing, prism force
`0.2 * normalizedDist * timeScale * strength` inside the radius only. -/
def playerForce007 {β : Type} [Add β] [Sub β] [Mul β] [Div β] [Neg β]
    (ops : JSOps β) (pl : Player) (p v : β × β) (ts : β) : β × β :=
  let toPlayerX := ops.ofRat pl.posX - p.1
  let toPlayerY := ops.ofRat pl.posY - p.2
  let playerDist := ops.sqrt (toPlayerX * toPlayerX + toPlayerY * toPlayerY)
  if ops.ltb (ops.ofRat (1/10)) playerDist then
    let gravityForce := ops.ofRat pl.gravityStrength /
      ops.maxf (playerDist * ops.ofRat (1/10)) (ops.ofRat (1/2)) * ts
    let lensingForce := ops.ofRat pl.lensingStrength /
      ops.maxf (playerDist * ops.ofRat (1/20)) (ops.ofRat (1/10)) * ts
    let totalForce := gravityForce + lensingForce
    let norm := ops.ofRat 1 / playerDist
    let vx1 := v.1 + toPlayerX * norm * totalForce
    let vy1 := v.2 + toPlayerY * norm * totalForce
    if ops.ltb playerDist (ops.ofRat pl.prismRadius * ops.ofRat (3/2)) then
      if ops.ltb playerDist (ops.ofRat pl.prismRadius) then
        let normalizedDist := playerDist / ops.ofRat pl.prismRadius
        let strength := ops.ofRat (if pl.prismStrength = 0 then 2 else pl.prismStrength)
        let prismForce := ops.ofRat (1/5) * normalizedDist * ts * strength
        (vx1 - toPlayerX * norm * prismForce, vy1 - toPlayerY * norm * prismForce)
      else (vx1, vy1)
    else (vx1, vy1)
  else v

/-- Exponential velocity damping `v *= damping^timeScale` (both
variants). -/
def damp {β : Type} [Add β] [Sub β] [Mul β] [Div β] [Neg β]
    (ops : JSOps β) (opts : SimOptions) (v : β × β) (ts : β) : β × β :=
  (v.1 * ops.powf (ops.ofRat opts.velocityDamping) ts,
   v.2 * ops.powf (ops.ofRat opts.velocityDamping) ts)

/-- The boundary policy (textually identical in part_007 and part_008):
beyond `particleSpread * 2`, with probability 0.3 respawn at a fresh
orbital position, else clamp to 0.9 of the boundary and reflect the
velocity with 50% energy loss. -/
def boundaryCheck {β : Type} [Add β] [Sub β] [Mul β] [Div β] [Neg β]
    (ops : JSOps β) (rnd : ℕ → ℚ) (opts : SimOptions) (p v : β × β) (k : ℕ) :
    (β × β) × (β × β) × ℕ :=
  let maxDistance := ops.ofRat opts.particleSpread * ops.ofRat 2
  let distanceFromCenter := ops.sqrt (p.1 * p.1 + p.2 * p.2)
  if ops.ltb maxDistance distanceFromCenter then
    if ops.ltb (ops.ofRat (rnd k)) (ops.ofRat (3/10)) then
      let newRadius := ops.ofRat opts.particleSpread * ops.sqrt (ops.ofRat (rnd (k+1)))
      let newAngle := ops.ofRat (rnd (k+2)) * ops.piv * ops.ofRat 2
      let px := newRadius * ops.cosf newAngle
      let py := newRadius * ops.sinf newAngle
      let perpX := -py / newRadius
      let perpY := px / newRadius
      let speed := ops.ofRat opts.initialSpeed *
        (ops.ofRat (8/10) + ops.ofRat (rnd (k+3)) * ops.ofRat (4/10))
      ((px, py), (perpX * speed, perpY * speed), k + 4)
    else
      let factor := maxDistance / distanceFromCenter
      let px := p.1 * factor * ops.ofRat (9/10)
      let py := p.2 * factor * ops.ofRat (9/10)
      let normalX := -px / distanceFromCenter
      let normalY := -py / distanceFromCenter
      let dot := v.1 * normalX + v.2 * normalY
      ((px, py),
       ((v.1 - ops.ofRat 2 * dot * normalX) * ops.ofRat (1/2),
        (v.2 - ops.ofRat 2 * dot * normalY) * ops.ofRat (1/2)), k + 1)
  else (p, v, k)

/-- The whole per-particle body of `updatePhysics` in the simple variant
(part_007): central gravity, per-player forces in key order, damping,
integration, boundary policy. -/
def particleStep007 {β : Type} [Add β] [Sub β] [Mul β] [Div β] [Neg β]
    (ops : JSOps β) (rnd : ℕ → ℚ) (opts : SimOptions)
    (playersL : List (ℕ × Player)) (p v : β × β) (ts : β) (k : ℕ) :
    (β × β) × (β × β) × ℕ :=
  let v1 := centralGravity ops opts p v ts
  let v2 := playersL.foldl (fun acc kv => playerForce007 ops kv.2 p acc ts) v1
  let v3 := damp ops opts v2 ts
  let p1 := (p.1 + v3.1 * ts, p.2 + v3.2 * ts)
  boundaryCheck ops rnd opts p1 v3 k

/-- `updatePhysics(deltaTime)` of the simple variant (part_007). -/
def updatePhysics007 {β : Type} [Add β] [Sub β] [Mul β] [Div β] [Neg β]
    (ops : JSOps β) (rnd : ℕ → ℚ) (dt : ℚ) (k : ℕ) (s : SimState β) :
    SimState β × ℕ :=
  let ts := ops.ofRat (timeScale dt)
  let n := s.particles.length
  let step := fun (acc : (List (β × β) × List (β × β)) × ℕ) (i : ℕ) =>
    let ps := acc.1.1
    let vs := acc.1.2
    let p := jsGet ps i (ops.ofRat 0, ops.ofRat 0)
    let v := jsGet vs i (ops.ofRat 0, ops.ofRat 0)
    let (p', v', k') := particleStep007 ops rnd s.options s.players p v ts acc.2
    ((ps.set i p', vs.set i v'), k')
  let r := (List.range n).foldl step ((s.particles, s.velocities), k)
  ({ s with particles := r.1.1,
            velocities := r.1.2,
            simulationTime := s.simulationTime + dt }, r.2)

/-- The whole per-particle body of `updatePhysics` in the color-modulated
variant (part_008): the color-dispersion `forEach` pass, central gravity,
the per-player gravity/prism pass (which may lazily create and update the
virtual-color array), damping, integration, boundary policy. -/
def particleStep008 {β : Type} [Add β] [Sub β] [Mul β] [Div β] [Neg β]
    (ops : JSOps β) (rnd : ℕ → ℚ) (opts : SimOptions)
    (playersL : List (ℕ × Player)) (n i : ℕ) (p v : β × β)
    (col : β × β × β) (vc : Option (List β)) (ts : β) (k : ℕ) :
    (β × β) × (β × β) × Option (List β) × ℕ :=
  let w1 := playersL.foldl
    (fun acc kv => colorPrismForce ops rnd kv.2 p col acc.1 ts acc.2) (v, k)
  let v2 := centralGravity ops opts p w1.1 ts
  let w2 := playersL.foldl
    (fun (acc : (β × β) × Option (List β) × ℕ) kv =>
      playerForce008 ops rnd n kv.2 i p acc.1 acc.2.1 ts acc.2.2)
    (v2, vc, w1.2)
  let v4 := damp ops opts w2.1 ts
  let p1 := (p.1 + v4.1 * ts, p.2 + v4.2 * ts)
  let b := boundaryCheck ops rnd opts p1 v4 w2.2.2
  (b.1, b.2.1, w2.2.1, b.2.2)

/-- `updatePhysics(deltaTime)` of the color-modulated variant
(part_008). -/
def updatePhysics008 {β : Type} [Add β] [Sub β] [Mul β] [Div β] [Neg β]
    (ops : JSOps β) (rnd : ℕ → ℚ) (dt : ℚ) (k : ℕ) (s : SimState β) :
    SimState β × ℕ :=
  let ts := ops.ofRat (timeScale dt)
  let n := s.particles.length
  let step := fun (acc : (List (β × β) × List (β × β) × Option (List β)) × ℕ) (i : ℕ) =>
    let ps := acc.1.1
    let vs := acc.1.2.1
    let vc := acc.1.2.2
    let p := jsGet ps i (ops.ofRat 0, ops.ofRat 0)
    let v := jsGet vs i (ops.ofRat 0, ops.ofRat 0)
    let col := jsGet s.colors i (ops.ofRat 0, ops.ofRat 0, ops.ofRat 0)
    let r := particleStep008 ops rnd s.options s.players n i p v col vc ts acc.2
    ((ps.set i r.1, vs.set i r.2.1, r.2.2.1), r.2.2.2)
  let r := (List.range n).foldl step
    ((s.particles, s.velocities, s.particleVirtualColors), k)
  ({ s with particles := r.1.1,
            velocities := r.1.2.1,
            particleVirtualColors := r.1.2.2,
            simulationTime := s.simulationTime + dt }, r.2)

/-- `resetSimulation()` of the color-modulated variant: stop, re-create the
particle arrays, zero the simulation clock, restart. -/
def resetSimulation008 {β : Type} [Add β] [Sub β] [Mul β] [Div β] [Neg β]
    (ops : JSOps β) (rnd : ℕ → ℚ) (k : ℕ) (s : SimState β) :
    SimState β × ℕ :=
  let s1 : SimState β := { s with running := false }
  let r := initParticles008 ops rnd k s1
  ({ r.1 with simulationTime := 0, running := true }, r.2)

/-! ## Server model

The physics-server wiring (part_001; the corresponding block of
`server.js` is identical except that its broadcast loop sends no metrics
and uses a 100 ms full-update interval — modelled separately as
`broadcastTickServerJs`).  Channels are identified by numbers; `conns`
models the `players` object (`playerId → {ws}`), again with JavaScript's
ascending integer-key iteration order.  The simulation the server owns is
instantiated with the color-modulated physics variant. -/

/-- The `perfMetrics` object gathered by the broadcast loop. -/
structure Metrics : Type where
  physicsTime : ℚ
  avgPhysicsTime : ℚ
  particleCount : ℕ
  playerCount : ℕ
deriving DecidableEq, Repr

/-- An outbound wire frame.  `systemMessage` carries the new particle
count (the source sends the text `Particle count changed to` followed by
that number). -/
inductive Frame (β : Type) : Type where
  | idMsg (id : ℕ)
  | fullState (particles : List (β × β)) (players : List (ℕ × Player))
      (simulationTime : ℚ) (metrics : Option Metrics)
  | particleUpdate (particles : List (β × β)) (time : ℚ)
      (metrics : Option Metrics)
  | playersMsg (ids : List ℕ)
  | playerUpdate (playerId : ℕ) (data : PlayerParams)
  | systemMessage (newCount : ℕ)
deriving DecidableEq, Repr

/-- The `type` tag of a frame. -/
inductive FrameKind : Type where
  | idK | fullStateK | particleUpdateK | playersK | playerUpdateK | systemK
deriving DecidableEq, Repr

/-- Classify a frame by its `type` tag. -/
def Frame.kind {β : Type} : Frame β → FrameKind
  | .idMsg _ => .idK
  | .fullState _ _ _ _ => .fullStateK
  | .particleUpdate _ _ _ => .particleUpdateK
  | .playersMsg _ => .playersK
  | .playerUpdate _ _ => .playerUpdateK
  | .systemMessage _ => .systemK

/-- The `metrics` field of a frame (`none` = the property is absent). -/
def Frame.metricsOf {β : Type} : Frame β → Option Metrics
  | .fullState _ _ _ m => m
  | .particleUpdate _ _ m => m
  | _ => none

/-- An inbound message after JSON parsing, by its `type`; `otherMsg`
covers unknown types (ignored by the handler). -/
inductive InMsg : Type where
  | updatePosition (position : ℚ × ℚ)
  | updateParams (params : PlayerParams)
  | setParticleCount (count : Option ℕ)
  | otherMsg
deriving DecidableEq, Repr

/-- The server's mutable state: the `players` connection object, the id
counter, the last-full-broadcast timestamp, the owned simulation, and the
next random-draw index. -/
structure ServerState (β : Type) : Type where
  conns : List (ℕ × ℕ)
  nextPlayerId : ℕ
  lastFullUpdateTime : ℤ
  sim : SimState β
  k : ℕ
deriving DecidableEq, Repr

/-- `broadcastPlayerList()`: the ascending id list, sent to every
connection. -/
def broadcastPlayerList {β : Type} (s : ServerState β) : List (ℕ × Frame β) :=
  s.conns.map (fun kv => (kv.2, Frame.playersMsg (s.conns.map Prod.fst)))

/-- `broadcastPlayerUpdate(playerId, updateData)`. -/
def broadcastPlayerUpdate {β : Type} (s : ServerState β) (pid : ℕ)
    (data : PlayerParams) : List (ℕ × Frame β) :=
  s.conns.map (fun kv => (kv.2, Frame.playerUpdate pid data))

/-- `broadcastSystemMessage(...)` after a particle-count change. -/
def broadcastSystemMessage {β : Type} (s : ServerState β) (n : ℕ) :
    List (ℕ × Frame β) :=
  s.conns.map (fun kv => (kv.2, Frame.systemMessage n))

/-- `Object.keys(players).find(id => players[id].ws === ws)`. -/
def findPlayerId {β : Type} (s : ServerState β) (c : ℕ) : Option ℕ :=
  (s.conns.find? (fun kv => kv.2 = c)).map Prod.fst

/-- The websocket `open` handler: assign the next id, store the
connection, register the player in the simulation with default params,
send the channel its id and one full-state frame (no metrics), then
broadcast the player list. -/
def handleOpen {β : Type} [Add β] [Sub β] [Mul β] [Div β] [Neg β]
    (c : ℕ) (s : ServerState β) : ServerState β × List (ℕ × Frame β) :=
  let playerId := s.nextPlayerId
  let conns' := setKey s.conns playerId c
  let sim' := (addPlayer playerId {} s.sim).2
  let s' : ServerState β :=
    { s with conns := conns', nextPlayerId := playerId + 1, sim := sim' }
  (s', (c, Frame.idMsg playerId) ::
       (c, Frame.fullState sim'.particles sim'.players sim'.simulationTime none) ::
       broadcastPlayerList s')

/-- The websocket `message` handler.  An unregistered sender is dropped;
`setParticleCount` additionally requires a truthy `count`, in which case
the count is clamped to `[500, 10000]`, the simulation is reset, and a
system message is broadcast. -/
def handleMessage {β : Type} [Add β] [Sub β] [Mul β] [Div β] [Neg β]
    (ops : JSOps β) (rnd : ℕ → ℚ) (c : ℕ) (m : InMsg) (s : ServerState β) :
    ServerState β × List (ℕ × Frame β) :=
  match findPlayerId s c with
  | none => (s, [])
  | some playerId =>
    match m with
    | .updatePosition pos =>
        let sim' := (updatePlayerPosition playerId pos s.sim).2
        let s' : ServerState β := { s with sim := sim' }
        (s', broadcastPlayerUpdate s' playerId { position := some pos })
    | .updateParams params =>
        let sim' := (updatePlayerParams playerId params s.sim).2
        let s' : ServerState β := { s with sim := sim' }
        (s', broadcastPlayerUpdate s' playerId params)
    | .setParticleCount count =>
        match count with
        | some n =>
            if n = 0 then (s, [])
            else
              let newCount := min 10000 (max 500 n)
              let opts' := { s.sim.options with particleCount := newCount }
              let sim0 : SimState β := { s.sim with options := opts' }
              let r := resetSimulation008 ops rnd s.k sim0
              let s' : ServerState β := { s with sim := r.1, k := r.2 }
              (s', broadcastSystemMessage s' newCount)
        | none => (s, [])
    | .otherMsg => (s, [])

/-- The websocket `close` handler: remove the connection and the player's
gravity influence, then broadcast the updated player list. -/
def handleClose {β : Type} (c : ℕ) (s : ServerState β) :
    ServerState β × List (ℕ × Frame β) :=
  match findPlayerId s c with
  | none => (s, [])
  | some playerId =>
      let conns' := eraseKey s.conns playerId
      let sim' := (removePlayer playerId s.sim).2
      let s' : ServerState β := { s with conns := conns', sim := sim' }
      (s', broadcastPlayerList s')

/-- `FULL_UPDATE_INTERVAL` of the instrumented variant (part_001):
200 ms. -/
def fullUpdateInterval : ℤ := 200

/-- `FULL_UPDATE_INTERVAL` of the plain `server.js` variant: 100 ms. -/
def fullUpdateIntervalServerJs : ℤ := 100

/-- The `perfMetrics` object: last physics time and its moving average are
ambient measurements (inputs here); the counts come from the state. -/
def mkMetrics {β : Type} (physTime avgPhysTime : ℚ) (s : ServerState β) :
    Metrics :=
  { physicsTime := physTime, avgPhysicsTime := avgPhysTime,
    particleCount := s.sim.particles.length, playerCount := s.conns.length }

/-- One firing of the part_001 broadcast timer: within
`fullUpdateInterval` of the last full broadcast send a `particleUpdate`
frame (positions, time, metrics) to every connection, otherwise send a
`fullState` frame (positions, players, time, metrics) to every connection
and reset the last-full timestamp. -/
def broadcastTick001 {β : Type} (now : ℤ) (physTime avgPhysTime : ℚ)
    (s : ServerState β) : ServerState β × List (ℕ × Frame β) :=
  let pm := mkMetrics physTime avgPhysTime s
  if now - s.lastFullUpdateTime < fullUpdateInterval then
    (s, s.conns.map (fun kv =>
      (kv.2, Frame.particleUpdate s.sim.particles s.sim.simulationTime (some pm))))
  else
    ({ s with lastFullUpdateTime := now },
     s.conns.map (fun kv =>
      (kv.2, Frame.fullState s.sim.particles s.sim.players s.sim.simulationTime (some pm))))

/-- One firing of the plain `server.js` broadcast timer: the same
full/delta alternation with a 100 ms interval, but neither frame carries a
`metrics` field. -/
def broadcastTickServerJs {β : Type} (now : ℤ) (s : ServerState β) :
    ServerState β × List (ℕ × Frame β) :=
  if now - s.lastFullUpdateTime < fullUpdateIntervalServerJs then
    (s, s.conns.map (fun kv =>
      (kv.2, Frame.particleUpdate s.sim.particles s.sim.simulationTime none)))
  else
    ({ s with lastFullUpdateTime := now },
     s.conns.map (fun kv =>
      (kv.2, Frame.fullState s.sim.particles s.sim.players s.sim.simulationTime none)))

/-- One firing of the physics timer (`startSimulation`'s interval): steps
the owned simulation; sends nothing. -/
def handlePhysicsTick {β : Type} [Add β] [Sub β] [Mul β] [Div β] [Neg β]
    (ops : JSOps β) (rnd : ℕ → ℚ) (dt : ℚ) (s : ServerState β) :
    ServerState β × List (ℕ × Frame β) :=
  let r := updatePhysics008 ops rnd dt s.k s.sim
  ({ s with sim := r.1, k := r.2 }, [])

/-- An event of the single-threaded host: a connection opening, an inbound
message, a close, a broadcast-timer firing (with the ambient clock reading
and performance measurements), or a physics-timer firing.  Each event's
handler runs to completion atomically. -/
inductive Event : Type where
  | openE (c : ℕ)
  | msgE (c : ℕ) (m : InMsg)
  | closeE (c : ℕ)
  | broadcastE (now : ℤ) (physTime avgPhysTime : ℚ)
  | physicsE (dt : ℚ)
deriving DecidableEq, Repr

/-- Dispatch one event. -/
def stepEvent {β : Type} [Add β] [Sub β] [Mul β] [Div β] [Neg β]
    (ops : JSOps β) (rnd : ℕ → ℚ) :
    Event → ServerState β → ServerState β × List (ℕ × Frame β)
  | .openE c, s => handleOpen c s
  | .msgE c m, s => handleMessage ops rnd c m s
  | .closeE c, s => handleClose c s
  | .broadcastE now a b, s => broadcastTick001 now a b s
  | .physicsE dt, s => handlePhysicsTick ops rnd dt s

/-- Run a sequence of events, concatenating the delivery log. -/
def runEvents {β : Type} [Add β] [Sub β] [Mul β] [Div β] [Neg β]
    (ops : JSOps β) (rnd : ℕ → ℚ) :
    List Event → ServerState β → ServerState β × List (ℕ × Frame β)
  | [], s => (s, [])
  | e :: rest, s =>
      let r1 := stepEvent ops rnd e s
      let r2 := runEvents ops rnd rest r1.1
      (r2.1, r1.2 ++ r2.2)

/-- The messages delivered to channel `c`, in order. -/
def sentTo {β : Type} (c : ℕ) (log : List (ℕ × Frame β)) : List (Frame β) :=
  log.filterMap (fun x => if x.1 = c then some x.2 else none)

/-! ## Concrete instantiations used for witnesses and counterexamples -/

/-- A fresh simulation state as set up by the `ServerPhysicsSimulation`
constructor, before `initParticles` runs. -/
def newSimState {β : Type} (o : OptionsIn) : SimState β :=
  { options := mkOptions o, particles := [], velocities := [], colors := [],
    players := [], simulationTime := 0, running := false,
    particleVirtualColors := none }

/-- `new ServerPhysicsSimulation(options)` of the color-modulated variant:
build the option record, then `initParticles()`. -/
def mkSimulation008 {β : Type} [Add β] [Sub β] [Mul β] [Div β] [Neg β]
    (ops : JSOps β) (rnd : ℕ → ℚ) (o : OptionsIn) (k : ℕ) : SimState β × ℕ :=
  initParticles008 ops rnd k (newSimState o)

/-- `new ServerPhysicsSimulation(options)` of the simple variant. -/
def mkSimulation007 {β : Type} [Add β] [Sub β] [Mul β] [Div β] [Neg β]
    (ops : JSOps β) (rnd : ℕ → ℚ) (o : OptionsIn) (k : ℕ) : SimState β × ℕ :=
  initParticles007 ops rnd k (newSimState o)

/-- A concrete `JSOps ℚ` instantiation with placeholder transcendental
functions, for witnesses whose conclusions do not depend on them. -/
def dummyOps : JSOps ℚ := ratOps id id id (fun a _ => a) 3

/-- A concrete `JSOps ℚ` instantiation whose `sqrt` is constantly 1:
with it, every distance computed by the step functions evaluates to 1,
which places a particle strictly between the `0.1` singularity guard and
the prism radius of a default player. -/
def oneOps : JSOps ℚ := ratOps (fun _ => 1) id id (fun a _ => a) 3

/-- A concrete NaN-tracking instantiation; its `sqrt` maps 0 to 0 (as
`Math.sqrt` does) — the only finite value it is applied to on the traced
path. -/
def nanDemoOps : JSOps JsNum := nanOps (fun _ => 0) id id (fun a _ => a) 3

/-- The constant draw stream 1/2. -/
def rndHalf : ℕ → ℚ := fun _ => 1/2

/-- The constant draw stream 0. -/
def rndZero : ℕ → ℚ := fun _ => 0

/-- An empty simulation over ℚ with default options. -/
def emptySim : SimState ℚ := newSimState {}

/-- A server state with no connections owning the empty simulation. -/
def emptyServer : ServerState ℚ :=
  { conns := [], nextPlayerId := 1, lastFullUpdateTime := 0,
    sim := emptySim, k := 0 }

/-- A server state with one registered connection (player 1 on
channel 5). -/
def srvOne : ServerState ℚ := { emptyServer with conns := [(1, 5)] }

/-- The options `server.js` passes to the simulation. -/
def serverJsOptions : OptionsIn :=
  { particleCount := some 2000, updateRate := some 20,
    gravityStrength := some 1, particleSpread := some 800 }

/-- The state exhibiting the NaN divergence of claim C1: the simulation is
configured exactly as in `server.js`; one player has been added through
`addPlayer` with default parameters, so its well sits at `(0,0)`; the
tracked particle sits exactly at the origin — a position the initializer
produces when its inner-disc branch draws radius 0.  (The other 1999
particles are updated independently and are omitted; each particle's step
reads only its own position/velocity/color.) -/
def c1Sim : SimState JsNum :=
  let base : SimState JsNum :=
    { options := mkOptions serverJsOptions,
      particles := [(.fin 0, .fin 0)], velocities := [(.fin 0, .fin 0)],
      colors := [(.fin (1/2), .fin (1/2), .fin (1/2))], players := [],
      simulationTime := 0, running := true, particleVirtualColors := none }
  (addPlayer 1 {} base).2

/-- The state exhibiting re-assignment of a zero virtual color class
(claim C10): one particle, one default player, stored class 0. -/
def c10Sim : SimState ℚ :=
  let base : SimState ℚ :=
    { options := mkOptions {}, particles := [(3, 4)], velocities := [(0, 0)],
      colors := [(1/2, 1/2, 1/2)], players := [],
      simulationTime := 0, running := true,
      particleVirtualColors := some [0] }
  (addPlayer 1 {} base).2

/-! ## Helper lemmas: `JsNum` arithmetic -/

@[simp] lemma JsNum.fin_add_fin (x y : ℚ) :
    JsNum.fin x + JsNum.fin y = JsNum.fin (x + y) := rfl

@[simp] lemma JsNum.nan_add (a : JsNum) : JsNum.nan + a = JsNum.nan := rfl

@[simp] lemma JsNum.add_nan (a : JsNum) : a + JsNum.nan = JsNum.nan := by
  cases a <;> rfl

@[simp] lemma JsNum.fin_sub_fin (x y : ℚ) :
    JsNum.fin x - JsNum.fin y = JsNum.fin (x - y) := rfl

@[simp] lemma JsNum.nan_sub (a : JsNum) : JsNum.nan - a = JsNum.nan := rfl

@[simp] lemma JsNum.sub_nan (a : JsNum) : a - JsNum.nan = JsNum.nan := by
  cases a <;> rfl

@[simp] lemma JsNum.fin_mul_fin (x y : ℚ) :
    JsNum.fin x * JsNum.fin y = JsNum.fin (x * y) := rfl

@[simp] lemma JsNum.nan_mul (a : JsNum) : JsNum.nan * a = JsNum.nan := rfl

@[simp] lemma JsNum.mul_nan (a : JsNum) : a * JsNum.nan = JsNum.nan := by
  cases a <;> rfl

@[simp] lemma JsNum.neg_fin (x : ℚ) : -JsNum.fin x = JsNum.fin (-x) := rfl

@[simp] lemma JsNum.neg_nan : -JsNum.nan = JsNum.nan := rfl

@[simp] lemma JsNum.fin_div_fin (x y : ℚ) :
    JsNum.fin x / JsNum.fin y =
      if y = 0 then JsNum.nan else JsNum.fin (x / y) := rfl

@[simp] lemma JsNum.nan_div (a : JsNum) : JsNum.nan / a = JsNum.nan := rfl

@[simp] lemma JsNum.div_nan (a : JsNum) : a / JsNum.nan = JsNum.nan := by
  cases a <;> rfl

/-! ## Helper lemmas: the key-indexed object model -/

lemma lookupKey_setKey_self {α : Type} :
    ∀ (l : List (ℕ × α)) (p : ℕ) (v : α),
      lookupKey (setKey l p v) p = some v
  | [], p, v => by simp [setKey, lookupKey]
  | (k', v') :: t, p, v => by
      by_cases h1 : p = k'
      · simp [setKey, h1, lookupKey]
      · by_cases h2 : p < k'
        · simp [setKey, h1, h2, lookupKey]
        · simp [setKey, h1, h2, lookupKey, lookupKey_setKey_self t p v]

lemma eraseKey_of_lookup_none {α : Type} :
    ∀ (l : List (ℕ × α)) (p : ℕ),
      lookupKey l p = none → eraseKey l p = l
  | [], _, _ => rfl
  | (k', v') :: t, p, h => by
      simp only [lookupKey] at h
      by_cases h1 : p = k'
      · simp [h1] at h
      · simp [h1] at h
        simp [eraseKey, h1, eraseKey_of_lookup_none t p h]

lemma eraseKey_setKey {α : Type} :
    ∀ (l : List (ℕ × α)) (p : ℕ) (v : α),
      lookupKey l p = none → eraseKey (setKey l p v) p = l
  | [], p, v, _ => by simp [setKey, eraseKey]
  | (k', v') :: t, p, v, h => by
      simp only [lookupKey] at h
      by_cases h1 : p = k'
      · simp [h1] at h
      · simp [h1] at h
        by_cases h2 : p < k'
        · have ht : eraseKey t p = t := eraseKey_of_lookup_none t p h
          simp [setKey, h1, h2, eraseKey, ht]
        · simp [setKey, h1, h2, eraseKey, eraseKey_setKey t p v h]

/-! ## Helper lemmas: particle-pool sizes -/

lemma initLoop007_length {β : Type} [Add β] [Sub β] [Mul β] [Div β] [Neg β]
    (ops : JSOps β) (rnd : ℕ → ℚ) (opts : SimOptions) :
    ∀ (n k : ℕ),
      (initLoop007 ops rnd opts n k).1.1.length = n ∧
      (initLoop007 ops rnd opts n k).1.2.length = n
  | 0, _ => by simp [initLoop007]
  | n + 1, k => by
      have ih := initLoop007_length ops rnd opts n
        (initParticle007 ops rnd opts k).2.2
      simp [initLoop007, ih.1, ih.2]

lemma initLoop008_length {β : Type} [Add β] [Sub β] [Mul β] [Div β] [Neg β]
    (ops : JSOps β) (rnd : ℕ → ℚ) (opts : SimOptions) :
    ∀ (n k : ℕ),
      (initLoop008 ops rnd opts n k).1.1.length = n ∧
      (initLoop008 ops rnd opts n k).1.2.1.length = n
  | 0, _ => by simp [initLoop008]
  | n + 1, k => by
      have ih := initLoop008_length ops rnd opts n
        (initParticle008 ops rnd opts k).2.2.2
      simp [initLoop008, ih.1, ih.2]

lemma initParticles007_length {β : Type} [Add β] [Sub β] [Mul β] [Div β] [Neg β]
    (ops : JSOps β) (rnd : ℕ → ℚ) (k : ℕ) (s : SimState β) :
    (initParticles007 ops rnd k s).1.particles.length = s.options.particleCount ∧
    (initParticles007 ops rnd k s).1.velocities.length = s.options.particleCount := by
  have h := initLoop007_length ops rnd s.options s.options.particleCount k
  simpa [initParticles007] using h

lemma initParticles008_length {β : Type} [Add β] [Sub β] [Mul β] [Div β] [Neg β]
    (ops : JSOps β) (rnd : ℕ → ℚ) (k : ℕ) (s : SimState β) :
    (initParticles008 ops rnd k s).1.particles.length = s.options.particleCount ∧
    (initParticles008 ops rnd k s).1.velocities.length = s.options.particleCount := by
  have h := initLoop008_length ops rnd s.options s.options.particleCount k
  simpa [initParticles008] using h

/-! ## Claim C2: the `timeScale` clamp -/

/-- C2 counterexample: the claim asserts `timeScale ∈ [0, 2]` for every
`deltaTime`, but `Math.min` clamps only from above — at
`deltaTime = -1000/60` the computed `timeScale` is `-1`. -/
theorem c2_negative_deltaTime_counterexample :
    ¬ (0 ≤ timeScale (-(1000/60)) ∧ timeScale (-(1000/60)) ≤ 2) := by
  intro h
  have h1 : timeScale (-(1000/60)) = -1 := by norm_num [timeScale]
  rw [h1] at h
  norm_num at h

/-- C2 amended: for every nonnegative `deltaTime` (the only values the
tick loop produces as long as the wall clock does not step backwards),
`timeScale` lies in `[0, 2]`. -/
theorem c2_timeScale_bounds (dt : ℚ) (h : 0 ≤ dt) :
    0 ≤ timeScale dt ∧ timeScale dt ≤ 2 := by
  constructor
  · exact le_min (by positivity) (by norm_num)
  · exact min_le_right _ _

/-- C2 witness at `deltaTime = 33`. -/
theorem c2_timeScale_bounds_witness :
    0 ≤ (33 : ℚ) ∧ (0 ≤ timeScale 33 ∧ timeScale 33 ≤ 2) :=
  ⟨by decide, c2_timeScale_bounds 33 (by decide)⟩

/-! ## Claim C6: operations on an unknown player id -/

/-- C6: for an id not present in the registry, `updatePlayerPosition`,
`updatePlayerParams` and `removePlayer` all return `false` and leave the
whole simulation state (in particular the registry) unchanged. -/
theorem c6_unknown_id_noop {β : Type} (s : SimState β) (p : ℕ)
    (pos : ℚ × ℚ) (params : PlayerParams)
    (h : lookupKey s.players p = none) :
    updatePlayerPosition p pos s = (false, s) ∧
    updatePlayerParams p params s = (false, s) ∧
    removePlayer p s = (false, s) := by
  refine ⟨?_, ?_, ?_⟩ <;> simp [updatePlayerPosition, updatePlayerParams, removePlayer, h]

/-- C6 witness: the empty registry at id 1. -/
theorem c6_unknown_id_noop_witness :
    lookupKey emptySim.players 1 = none ∧
    (updatePlayerPosition 1 (2, 3) emptySim = (false, emptySim) ∧
     updatePlayerParams 1 {} emptySim = (false, emptySim) ∧
     removePlayer 1 emptySim = (false, emptySim)) :=
  ⟨rfl, c6_unknown_id_noop emptySim 1 (2, 3) {} rfl⟩

/-! ## Claim C3: pool size after init -/

/-- C3 counterexample: `initParticles` performs no clamping — a simulation
constructed with `particleCount = 100` has a 100-element pool, while
`clamp(100, 500, 10000) = 500`. -/
theorem c3_no_clamp_counterexample :
    (mkSimulation008 dummyOps rndZero { particleCount := some 100 } 0).1.particles.length = 100 ∧
    ¬ (100 = min 10000 (max 500 (100 : ℕ))) := by
  constructor
  · have h := (initParticles008_length dummyOps rndZero 0
      (newSimState { particleCount := some 100 })).1
    have h2 : ((newSimState { particleCount := some 100 } : SimState ℚ)).options.particleCount
        = 100 := rfl
    simp only [mkSimulation008]
    exact h.trans h2
  · omega

/-- C3 amended: after `initParticles` (either variant) the particle pool
and the parallel velocity array have exactly `options.particleCount`
elements — no clamping happens in init itself; the clamp to
`[500, 10000]` is applied only on the `setParticleCount` message path,
after which the re-initialized pool has exactly
`min 10000 (max 500 count)` elements. -/
theorem c3_pool_sizes {β : Type} [Add β] [Sub β] [Mul β] [Div β] [Neg β]
    (ops : JSOps β) (rnd : ℕ → ℚ) (k : ℕ) (s : SimState β)
    (srv : ServerState β) (c n pid : ℕ) :
    ((initParticles007 ops rnd k s).1.particles.length = s.options.particleCount ∧
     (initParticles007 ops rnd k s).1.velocities.length = s.options.particleCount) ∧
    ((initParticles008 ops rnd k s).1.particles.length = s.options.particleCount ∧
     (initParticles008 ops rnd k s).1.velocities.length = s.options.particleCount) ∧
    (n ≠ 0 → findPlayerId srv c = some pid →
      (handleMessage ops rnd c (InMsg.setParticleCount (some n)) srv).1.sim.particles.length
        = min 10000 (max 500 n)) := by
  refine ⟨initParticles007_length ops rnd k s, initParticles008_length ops rnd k s, ?_⟩
  intro hn hpid
  have h := (initParticles008_length ops rnd srv.k
    ({ srv.sim with
        options := { srv.sim.options with particleCount := min 10000 (max 500 n) },
        running := false } : SimState β)).1
  simp only [handleMessage, hpid, hn, resetSimulation008] at h ⊢
  simpa using h

/-- C3 witness: `setParticleCount 999999` from a registered channel. -/
theorem c3_pool_sizes_witness :
    ((999999 : ℕ) ≠ 0 ∧
     findPlayerId { emptyServer with conns := [(1, 5)] } 5 = some 1) ∧
    (handleMessage dummyOps rndZero 5 (InMsg.setParticleCount (some 999999))
        { emptyServer with conns := [(1, 5)] }).1.sim.particles.length =
      min 10000 (max 500 999999) :=
  ⟨⟨by decide, rfl⟩,
   (c3_pool_sizes dummyOps rndZero 0 emptySim
      { emptyServer with conns := [(1, 5)] } 5 999999 1).2.2 (by decide) rfl⟩

/-! ## Claim C5: `addPlayer` defaulting -/

/-- C5 counterexample: `addPlayer` builds the stored record without a
`prismDispersion` property, so a provided `prismDispersion` override is
not stored. -/
theorem c5_dispersion_dropped_counterexample :
    ¬ ((addPlayer 1 { prismDispersion := some 5 } emptySim).1.prismDispersion
        = some 5) := by
  simp [addPlayer]

/-- C5 amended: the five stored fields follow JavaScript `||` defaulting —
an override is honored only when present and truthy (nonzero; for
`position`, when present), otherwise the configured default applies
(`position = (0,0)`, `gravityStrength = 1.5 × options.gravityStrength`,
`prismRadius = options.prismRadius`, `lensingStrength = 3`,
`prismStrength = 2`); `prismDispersion` is never stored by `addPlayer`
(it is defaulted to 3 at use time inside the physics step); the record is
stored under the id and returned. -/
theorem c5_addPlayer_merge {β : Type} (s : SimState β) (p : ℕ)
    (init : PlayerInit) :
    (init.position = none →
       ((addPlayer p init s).1.posX, (addPlayer p init s).1.posY) = (0, 0)) ∧
    (∀ xy, init.position = some xy →
       ((addPlayer p init s).1.posX, (addPlayer p init s).1.posY) = xy) ∧
    ((init.gravityStrength = none ∨ init.gravityStrength = some 0) →
       (addPlayer p init s).1.gravityStrength = s.options.gravityStrength * (3/2)) ∧
    (∀ v, init.gravityStrength = some v → v ≠ 0 →
       (addPlayer p init s).1.gravityStrength = v) ∧
    ((init.prismRadius = none ∨ init.prismRadius = some 0) →
       (addPlayer p init s).1.prismRadius = s.options.prismRadius) ∧
    (∀ v, init.prismRadius = some v → v ≠ 0 →
       (addPlayer p init s).1.prismRadius = v) ∧
    ((init.lensingStrength = none ∨ init.lensingStrength = some 0) →
       (addPlayer p init s).1.lensingStrength = 3) ∧
    (∀ v, init.lensingStrength = some v → v ≠ 0 →
       (addPlayer p init s).1.lensingStrength = v) ∧
    ((init.prismStrength = none ∨ init.prismStrength = some 0) →
       (addPlayer p init s).1.prismStrength = 2) ∧
    (∀ v, init.prismStrength = some v → v ≠ 0 →
       (addPlayer p init s).1.prismStrength = v) ∧
    (addPlayer p init s).1.prismDispersion = none ∧
    lookupKey (addPlayer p init s).2.players p = some (addPlayer p init s).1 := by
  refine ⟨?_, ?_, ?_, ?_, ?_, ?_, ?_, ?_, ?_, ?_, ?_, ?_⟩
  · intro h; simp [addPlayer, h]
  · intro xy h; simp [addPlayer, h]
  · rintro (h | h) <;> simp [addPlayer, jsOrQ, h]
  · intro v h hv; simp [addPlayer, jsOrQ, h, hv]
  · rintro (h | h) <;> simp [addPlayer, jsOrQ, h]
  · intro v h hv; simp [addPlayer, jsOrQ, h, hv]
  · rintro (h | h) <;> simp [addPlayer, jsOrQ, h]
  · intro v h hv; simp [addPlayer, jsOrQ, h, hv]
  · rintro (h | h) <;> simp [addPlayer, jsOrQ, h]
  · intro v h hv; simp [addPlayer, jsOrQ, h, hv]
  · simp [addPlayer]
  · simp [addPlayer, lookupKey_setKey_self]

/-- C5 witness: a defaulted field and an honored override. -/
theorem c5_addPlayer_merge_witness :
    ((({} : PlayerInit).gravityStrength = none ∨
        ({} : PlayerInit).gravityStrength = some 0) ∧
     (addPlayer 1 {} emptySim).1.gravityStrength =
       emptySim.options.gravityStrength * (3/2)) ∧
    ((PlayerInit.mk none (some 7) none none none none).gravityStrength = some 7 ∧
     (7 : ℚ) ≠ 0 ∧
     (addPlayer 2 (PlayerInit.mk none (some 7) none none none none)
        emptySim).1.gravityStrength = 7) :=
  ⟨⟨Or.inl rfl, (c5_addPlayer_merge emptySim 1 {}).2.2.1 (Or.inl rfl)⟩,
   ⟨rfl, by decide,
    (c5_addPlayer_merge emptySim 2 (PlayerInit.mk none (some 7) none none none none)).2.2.2.1
      7 rfl (by decide)⟩⟩

/-! ## Claim C4: removal leaves no residual influence -/

/-- Adding a fresh player and removing it restores the exact previous
state: `addPlayer` touches only the registry entry and `removePlayer`
deletes exactly it. -/
lemma removePlayer_addPlayer {β : Type} (s : SimState β) (p : ℕ)
    (prms : PlayerInit) (h : lookupKey s.players p = none) :
    (removePlayer p (addPlayer p prms s).2).2 = s := by
  simp [removePlayer, addPlayer, lookupKey_setKey_self,
    eraseKey_setKey _ _ _ h]

/-- C4: for a registry without `p`, adding `p` (with any parameters),
removing it, and then running one physics step — in either variant, for
any draw stream — produces exactly the same simulation state as stepping
the simulation that never contained `p`. -/
theorem c4_remove_no_residual {β : Type} [Add β] [Sub β] [Mul β] [Div β] [Neg β]
    (ops : JSOps β) (rnd : ℕ → ℚ) (dt : ℚ) (k : ℕ) (s : SimState β)
    (p : ℕ) (prms : PlayerInit)
    (h : lookupKey s.players p = none) :
    updatePhysics007 ops rnd dt k (removePlayer p (addPlayer p prms s).2).2 =
      updatePhysics007 ops rnd dt k s ∧
    updatePhysics008 ops rnd dt k (removePlayer p (addPlayer p prms s).2).2 =
      updatePhysics008 ops rnd dt k s := by
  rw [removePlayer_addPlayer s p prms h]
  exact ⟨rfl, rfl⟩

/-- C4 witness at a concrete state. -/
theorem c4_remove_no_residual_witness :
    lookupKey emptySim.players 1 = none ∧
    (updatePhysics007 dummyOps rndZero 33 0
        (removePlayer 1 (addPlayer 1 {} emptySim).2).2 =
       updatePhysics007 dummyOps rndZero 33 0 emptySim ∧
     updatePhysics008 dummyOps rndZero 33 0
        (removePlayer 1 (addPlayer 1 {} emptySim).2).2 =
       updatePhysics008 dummyOps rndZero 33 0 emptySim) :=
  ⟨rfl, c4_remove_no_residual dummyOps rndZero 33 0 emptySim 1 {} rfl⟩

/-! ## Claim C9: falsy `setParticleCount` is a complete no-op -/

/-- C9: a `setParticleCount` message whose `count` is falsy (0 or absent)
leaves the server state untouched and sends nothing — no clamping, no
pool re-initialization, no system message; with a truthy `count` from a
registered channel the clamp-and-reinit path runs: the pool is rebuilt at
`min 10000 (max 500 count)` elements, the simulation clock is zeroed, and
a system message is broadcast to every connected channel. -/
theorem c9_falsy_count_noop {β : Type} [Add β] [Sub β] [Mul β] [Div β] [Neg β]
    (ops : JSOps β) (rnd : ℕ → ℚ) :
    (∀ (s : ServerState β) (c : ℕ),
       handleMessage ops rnd c (InMsg.setParticleCount (some 0)) s = (s, []) ∧
       handleMessage ops rnd c (InMsg.setParticleCount none) s = (s, [])) ∧
    (∀ (s : ServerState β) (c n pid : ℕ), n ≠ 0 → findPlayerId s c = some pid →
       (handleMessage ops rnd c (InMsg.setParticleCount (some n)) s).1.sim.particles.length
           = min 10000 (max 500 n) ∧
       (handleMessage ops rnd c (InMsg.setParticleCount (some n)) s).1.sim.simulationTime
           = 0 ∧
       (handleMessage ops rnd c (InMsg.setParticleCount (some n)) s).2 =
         s.conns.map (fun kv => (kv.2, Frame.systemMessage (min 10000 (max 500 n))))) := by
  constructor
  · intro s c
    cases hf : findPlayerId s c <;> simp [handleMessage, hf]
  · intro s c n pid hn hpid
    have h := (initParticles008_length ops rnd s.k
      ({ s.sim with
          options := { s.sim.options with particleCount := min 10000 (max 500 n) },
          running := false } : SimState β)).1
    refine ⟨?_, ?_, ?_⟩
    · simp only [handleMessage, hpid, hn, resetSimulation008] at h ⊢
      simpa using h
    · simp [handleMessage, hpid, hn, resetSimulation008]
    · simp [handleMessage, hpid, hn, resetSimulation008, broadcastSystemMessage]

/-- C9 witness: a falsy message at a concrete state, and the clamp path at
`count = 999999`. -/
theorem c9_falsy_count_noop_witness :
    (handleMessage dummyOps rndZero 5 (InMsg.setParticleCount (some 0)) srvOne
        = (srvOne, [])) ∧
    ((999999 : ℕ) ≠ 0 ∧ findPlayerId srvOne 5 = some 1) ∧
    (handleMessage dummyOps rndZero 5 (InMsg.setParticleCount (some 999999))
        srvOne).1.sim.particles.length = min 10000 (max 500 999999) :=
  ⟨((c9_falsy_count_noop dummyOps rndZero).1 srvOne 5).1,
   ⟨by decide, rfl⟩,
   ((c9_falsy_count_noop dummyOps rndZero).2 srvOne 5 999999 1 (by decide) rfl).1⟩

/-! ## Claim C7: broadcast framing -/

/-- C7 counterexample: in the plain `server.js` broadcast loop, a firing
with elapsed time at least the full-update interval sends a `fullState`
frame with no `metrics` property — the claim's "performance metrics"
component is absent in that variant. -/
theorem c7_serverjs_no_metrics_counterexample :
    fullUpdateIntervalServerJs ≤ (100 : ℤ) - srvOne.lastFullUpdateTime ∧
    (broadcastTickServerJs 100 srvOne).2.map
        (fun x => ((x.2).kind, (x.2).metricsOf)) =
      [(FrameKind.fullStateK, none)] := by
  constructor
  · decide
  · rfl

/-- C7 amended: on each firing, if the elapsed time since the last full
broadcast is at least the configured full-update interval, a `fullState`
frame (all particle positions, the full player map, the simulation time)
is sent to every connected channel and the last-full timestamp is reset to
`now`; otherwise a `particleUpdate` frame (positions and simulation time
only) is sent to every connected channel.  The instrumented variant
(part_001) attaches the performance metrics to both frame kinds; the plain
`server.js` variant sends both frame kinds without metrics. -/
theorem c7_broadcast_framing {β : Type} (now : ℤ) (a b : ℚ)
    (s : ServerState β) :
    (fullUpdateInterval ≤ now - s.lastFullUpdateTime →
       broadcastTick001 now a b s =
         ({ s with lastFullUpdateTime := now },
          s.conns.map (fun kv =>
            (kv.2, Frame.fullState s.sim.particles s.sim.players
              s.sim.simulationTime (some (mkMetrics a b s)))))) ∧
    (now - s.lastFullUpdateTime < fullUpdateInterval →
       broadcastTick001 now a b s =
         (s, s.conns.map (fun kv =>
            (kv.2, Frame.particleUpdate s.sim.particles s.sim.simulationTime
              (some (mkMetrics a b s)))))) ∧
    (fullUpdateIntervalServerJs ≤ now - s.lastFullUpdateTime →
       broadcastTickServerJs now s =
         ({ s with lastFullUpdateTime := now },
          s.conns.map (fun kv =>
            (kv.2, Frame.fullState s.sim.particles s.sim.players
              s.sim.simulationTime none)))) ∧
    (now - s.lastFullUpdateTime < fullUpdateIntervalServerJs →
       broadcastTickServerJs now s =
         (s, s.conns.map (fun kv =>
            (kv.2, Frame.particleUpdate s.sim.particles s.sim.simulationTime
              none)))) := by
  refine ⟨?_, ?_, ?_, ?_⟩
  · intro h; simp [broadcastTick001, not_lt.mpr h]
  · intro h; simp [broadcastTick001, h]
  · intro h; simp [broadcastTickServerJs, not_lt.mpr h]
  · intro h; simp [broadcastTickServerJs, h]

/-- C7 witness: a full-state firing of the part_001 loop at `now = 300`
with the last full broadcast at 0. -/
theorem c7_broadcast_framing_witness :
    fullUpdateInterval ≤ (300 : ℤ) - srvOne.lastFullUpdateTime ∧
    broadcastTick001 300 1 2 srvOne =
      ({ srvOne with lastFullUpdateTime := 300 },
       srvOne.conns.map (fun kv =>
         (kv.2, Frame.fullState srvOne.sim.particles srvOne.sim.players
           srvOne.sim.simulationTime (some (mkMetrics 1 2 srvOne))))) :=
  ⟨by decide, (c7_broadcast_framing 300 1 2 srvOne).1 (by decide)⟩

/-! ## Claim C8: connection handshake ordering -/

@[simp] lemma sentTo_nil {β : Type} (c : ℕ) :
    sentTo c ([] : List (ℕ × Frame β)) = [] := rfl

lemma sentTo_append {β : Type} (c : ℕ) (l1 l2 : List (ℕ × Frame β)) :
    sentTo c (l1 ++ l2) = sentTo c l1 ++ sentTo c l2 := by
  simp [sentTo, List.filterMap_append]

lemma sentTo_cons {β : Type} (c : ℕ) (x : ℕ × Frame β) (t : List (ℕ × Frame β)) :
    sentTo c (x :: t) =
      if x.1 = c then x.2 :: sentTo c t else sentTo c t := by
  by_cases hx : x.1 = c <;> simp [sentTo, List.filterMap_cons, hx]

/-- A broadcast over connections never delivers to a channel that is not
among them. -/
lemma sentTo_broadcast_nil {β : Type} (c : ℕ) (l : List (ℕ × ℕ))
    (f : ℕ × ℕ → Frame β) (h : c ∉ l.map Prod.snd) :
    sentTo c (l.map (fun kv => (kv.2, f kv))) = [] := by
  induction l with
  | nil => rfl
  | cons a t ih =>
      have h1 : ¬ (a.2 = c) := by
        intro hc
        exact h (by simp [hc])
      have h2 : c ∉ t.map Prod.snd := by
        intro hc
        exact h (by simp [hc])
      simp [sentTo_cons, h1, ih h2]

lemma mem_snd_setKey {α : Type} {x : α} {k : ℕ} {v : α} :
    ∀ {l : List (ℕ × α)},
      x ∈ (setKey l k v).map Prod.snd → x ∈ l.map Prod.snd ∨ x = v
  | [], h => by
      simp only [setKey, List.map_cons, List.map_nil, List.mem_singleton] at h
      exact Or.inr h
  | (k', v') :: t, h => by
      by_cases h1 : k = k'
      · rw [setKey, if_pos h1] at h
        simp only [List.map_cons, List.mem_cons] at h
        rcases h with h | h
        · exact Or.inr h
        · exact Or.inl (by simp only [List.map_cons, List.mem_cons]; exact Or.inr h)
      · by_cases h2 : k < k'
        · rw [setKey, if_neg h1, if_pos h2] at h
          simp only [List.map_cons, List.mem_cons] at h
          rcases h with h | h | h
          · exact Or.inr h
          · exact Or.inl (by simp only [List.map_cons, List.mem_cons]; exact Or.inl h)
          · exact Or.inl (by simp only [List.map_cons, List.mem_cons]; exact Or.inr h)
        · rw [setKey, if_neg h1, if_neg h2] at h
          simp only [List.map_cons, List.mem_cons] at h
          rcases h with h | h
          · exact Or.inl (by simp only [List.map_cons, List.mem_cons]; exact Or.inl h)
          · rcases mem_snd_setKey h with h' | h'
            · exact Or.inl (by simp only [List.map_cons, List.mem_cons]; exact Or.inr h')
            · exact Or.inr h'

lemma mem_snd_eraseKey {α : Type} {x : α} {k : ℕ} :
    ∀ {l : List (ℕ × α)},
      x ∈ (eraseKey l k).map Prod.snd → x ∈ l.map Prod.snd
  | [], h => h
  | (k', v') :: t, h => by
      by_cases h1 : k = k'
      · rw [eraseKey, if_pos h1] at h
        exact by
          simp only [List.map_cons, List.mem_cons]
          exact Or.inr (mem_snd_eraseKey h)
      · rw [eraseKey, if_neg h1] at h
        simp only [List.map_cons, List.mem_cons] at h
        rcases h with h | h
        · simp only [List.map_cons, List.mem_cons]
          exact Or.inl h
        · simp only [List.map_cons, List.mem_cons]
          exact Or.inr (mem_snd_eraseKey h)

/-- A single event delivers nothing to a channel that is not connected and
whose own `open` event it is not; nor does it connect that channel. -/
lemma stepEvent_avoids {β : Type} [Add β] [Sub β] [Mul β] [Div β] [Neg β]
    (ops : JSOps β) (rnd : ℕ → ℚ) (e : Event) (s : ServerState β) (c : ℕ)
    (hc : c ∉ s.conns.map Prod.snd) (he : e ≠ Event.openE c) :
    sentTo c (stepEvent ops rnd e s).2 = [] ∧
    c ∉ ((stepEvent ops rnd e s).1.conns.map Prod.snd) := by
  cases e with
  | openE c' =>
      have hcc : ¬ (c' = c) := by
        intro hq
        exact he (by rw [hq])
      have hnotin : c ∉ ((setKey s.conns s.nextPlayerId c').map Prod.snd) := by
        intro hmem
        rcases mem_snd_setKey hmem with h | h
        · exact hc h
        · exact hcc h.symm
      constructor
      · simp only [stepEvent, handleOpen]
        rw [sentTo_cons, sentTo_cons]
        simp only [hcc, if_false]
        exact sentTo_broadcast_nil c _ _ hnotin
      · simpa [stepEvent, handleOpen] using hnotin
  | msgE c' m =>
      cases hf : findPlayerId s c' with
      | none =>
          simp [stepEvent, handleMessage, hf, hc]
      | some pid =>
          cases m with
          | updatePosition pos =>
              refine ⟨?_, by simpa [stepEvent, handleMessage, hf] using hc⟩
              simp only [stepEvent, handleMessage, hf, broadcastPlayerUpdate]
              exact sentTo_broadcast_nil c _ _ hc
          | updateParams params =>
              refine ⟨?_, by simpa [stepEvent, handleMessage, hf] using hc⟩
              simp only [stepEvent, handleMessage, hf, broadcastPlayerUpdate]
              exact sentTo_broadcast_nil c _ _ hc
          | setParticleCount count =>
              cases count with
              | none => simp [stepEvent, handleMessage, hf, hc]
              | some n =>
                  by_cases hn : n = 0
                  · simp [stepEvent, handleMessage, hf, hn, hc]
                  · refine ⟨?_, by simpa [stepEvent, handleMessage, hf, hn] using hc⟩
                    simp only [stepEvent, handleMessage, hf, hn, if_false,
                      broadcastSystemMessage]
                    exact sentTo_broadcast_nil c _ _ hc
          | otherMsg => simp [stepEvent, handleMessage, hf, hc]
  | closeE c' =>
      cases hf : findPlayerId s c' with
      | none => simp [stepEvent, handleClose, hf, hc]
      | some pid =>
          have hnotin : c ∉ ((eraseKey s.conns pid).map Prod.snd) :=
            fun hmem => hc (mem_snd_eraseKey hmem)
          constructor
          · simp only [stepEvent, handleClose, hf, broadcastPlayerList]
            exact sentTo_broadcast_nil c _ _ hnotin
          · simpa [stepEvent, handleClose, hf] using hnotin
  | broadcastE now a b =>
      by_cases hlt : now - s.lastFullUpdateTime < fullUpdateInterval
      · refine ⟨?_, by simpa [stepEvent, broadcastTick001, hlt] using hc⟩
        simp only [stepEvent, broadcastTick001, hlt, if_true]
        exact sentTo_broadcast_nil c _ _ hc
      · refine ⟨?_, by simpa [stepEvent, broadcastTick001, hlt] using hc⟩
        simp only [stepEvent, broadcastTick001, hlt, if_false]
        exact sentTo_broadcast_nil c _ _ hc
  | physicsE dt =>
      simp [stepEvent, handlePhysicsTick, hc]

/-- Running events that do not include a channel's own `open` delivers
nothing to it and leaves it unconnected. -/
lemma runEvents_avoids {β : Type} [Add β] [Sub β] [Mul β] [Div β] [Neg β]
    (ops : JSOps β) (rnd : ℕ → ℚ) :
    ∀ (pre : List Event) (s : ServerState β) (c : ℕ),
      c ∉ s.conns.map Prod.snd → Event.openE c ∉ pre →
      sentTo c (runEvents ops rnd pre s).2 = [] ∧
      c ∉ ((runEvents ops rnd pre s).1.conns.map Prod.snd)
  | [], s, c, hc, _ => ⟨rfl, hc⟩
  | e :: t, s, c, hc, hpre => by
      have he : e ≠ Event.openE c := by
        intro heq
        exact hpre (by simp [heq])
      have h1 := stepEvent_avoids ops rnd e s c hc he
      have h2 := runEvents_avoids ops rnd t (stepEvent ops rnd e s).1 c h1.2
        (fun hm => hpre (by simp [hm]))
      constructor
      · simp [runEvents, sentTo_append, h1.1, h2.1]
      · simpa [runEvents] using h2.2

lemma runEvents_append {β : Type} [Add β] [Sub β] [Mul β] [Div β] [Neg β]
    (ops : JSOps β) (rnd : ℕ → ℚ) :
    ∀ (l1 l2 : List Event) (s : ServerState β),
      runEvents ops rnd (l1 ++ l2) s =
        ((runEvents ops rnd l2 (runEvents ops rnd l1 s).1).1,
         (runEvents ops rnd l1 s).2 ++
           (runEvents ops rnd l2 (runEvents ops rnd l1 s).1).2)
  | [], l2, s => by simp [runEvents]
  | e :: t, l2, s => by
      simp [runEvents, runEvents_append ops rnd t l2 (stepEvent ops rnd e s).1,
        List.append_assoc]

/-- C8: in every event trace, a channel that was not previously connected
and whose `open` event occurs receives, as its first two messages ever, an
`id` frame followed by a `fullState` frame — in particular no
`particleUpdate` frame is delivered to it before those two. -/
theorem c8_handshake_order {β : Type} [Add β] [Sub β] [Mul β] [Div β] [Neg β]
    (ops : JSOps β) (rnd : ℕ → ℚ) (pre post : List Event)
    (s0 : ServerState β) (c : ℕ)
    (h0 : c ∉ s0.conns.map Prod.snd) (hpre : Event.openE c ∉ pre) :
    ((sentTo c (runEvents ops rnd (pre ++ Event.openE c :: post) s0).2).map
        Frame.kind).take 2 = [FrameKind.idK, FrameKind.fullStateK] := by
  have hpre' := runEvents_avoids ops rnd pre s0 c h0 hpre
  rw [runEvents_append ops rnd pre (Event.openE c :: post) s0]
  simp only [runEvents]
  rw [sentTo_append, hpre'.1, sentTo_append]
  simp only [stepEvent, handleOpen]
  rw [sentTo_cons, sentTo_cons]
  simp [List.take]
  exact ⟨rfl, rfl⟩

/-- C8 witness: a fresh channel opening on the initial server state. -/
theorem c8_handshake_order_witness :
    ((5 : ℕ) ∉ emptyServer.conns.map Prod.snd ∧
     Event.openE 5 ∉ ([] : List Event)) ∧
    ((sentTo 5 (runEvents dummyOps rndZero
        ([] ++ Event.openE 5 :: []) emptyServer).2).map Frame.kind).take 2
      = [FrameKind.idK, FrameKind.fullStateK] :=
  ⟨⟨by simp [emptyServer], by simp⟩,
   c8_handshake_order dummyOps rndZero [] [] emptyServer 5
     (by simp [emptyServer]) (by simp)⟩

/-! ## Claim C10: virtual color class stability -/

lemma jsGet_set_ne {β : Type} (l : List β) (i j : ℕ) (f d : β)
    (hij : i ≠ j) : jsGet (l.set i f) j d = jsGet l j d := by
  simp [jsGet, List.getD, List.getElem?_set_ne hij]

lemma vcFetch_truthy {β : Type} [Add β] [Sub β] [Mul β] [Div β] [Neg β]
    (ops : JSOps β) (rnd : ℕ → ℚ) (l : List β) (i k : ℕ)
    (h : ops.truthy (jsGet l i (ops.ofRat 0)) = true) :
    vcFetch ops rnd l i k = (jsGet l i (ops.ofRat 0), l, k) := by
  simp only [vcFetch]
  rw [if_pos h]

lemma vcFetch_shape {β : Type} [Add β] [Sub β] [Mul β] [Div β] [Neg β]
    (ops : JSOps β) (rnd : ℕ → ℚ) (l : List β) (i k : ℕ) :
    (vcFetch ops rnd l i k).2.1 = l ∨
    ∃ f, (vcFetch ops rnd l i k).2.1 = l.set i f := by
  by_cases h : ops.truthy (jsGet l i (ops.ofRat 0)) = true
  · exact Or.inl (by simp only [vcFetch]; rw [if_pos h])
  · exact Or.inr ⟨_, by simp only [vcFetch]; rw [if_neg h]⟩

/-- When the stored class of particle `i` is truthy, the per-player pass
never rewrites the virtual-color array. -/
lemma playerForce008_vc_truthy {β : Type} [Add β] [Sub β] [Mul β] [Div β] [Neg β]
    (ops : JSOps β) (rnd : ℕ → ℚ) (n : ℕ) (pl : Player) (i : ℕ)
    (p v : β × β) (l : List β) (ts : β) (k : ℕ)
    (h : ops.truthy (jsGet l i (ops.ofRat 0)) = true) :
    (playerForce008 ops rnd n pl i p v (some l) ts k).2.1 = some l := by
  simp only [playerForce008]
  split_ifs <;> simp [vcFetch_truthy ops rnd l i _ h]

/-- The per-player pass either keeps the virtual-color array or rewrites
only the processed particle's entry. -/
lemma playerForce008_vc_shape {β : Type} [Add β] [Sub β] [Mul β] [Div β] [Neg β]
    (ops : JSOps β) (rnd : ℕ → ℚ) (n : ℕ) (pl : Player) (j : ℕ)
    (p v : β × β) (l : List β) (ts : β) (k : ℕ) :
    (playerForce008 ops rnd n pl j p v (some l) ts k).2.1 = some l ∨
    ∃ f, (playerForce008 ops rnd n pl j p v (some l) ts k).2.1
      = some (l.set j f) := by
  simp only [playerForce008]
  split_ifs <;> try exact Or.inl rfl
  all_goals
    rcases vcFetch_shape ops rnd l j k with h | ⟨f, h⟩
  all_goals
    simp [h]

/-- Invariant: the array exists and particle `i`'s entry equals a fixed
truthy value. -/
lemma playerForce008_vc_inv {β : Type} [Add β] [Sub β] [Mul β] [Div β] [Neg β]
    (ops : JSOps β) (rnd : ℕ → ℚ) (n j i : ℕ) (pl : Player)
    (p v : β × β) (ts : β) (k : ℕ) (l : List β) (baseVal : β)
    (hb : ops.truthy baseVal = true)
    (hl : jsGet l i (ops.ofRat 0) = baseVal) :
    ∃ l', (playerForce008 ops rnd n pl j p v (some l) ts k).2.1 = some l' ∧
      jsGet l' i (ops.ofRat 0) = baseVal := by
  by_cases hij : j = i
  · subst hij
    refine ⟨l, playerForce008_vc_truthy ops rnd n pl j p v l ts k ?_, hl⟩
    rw [hl]; exact hb
  · rcases playerForce008_vc_shape ops rnd n pl j p v l ts k with h | ⟨f, h⟩
    · exact ⟨l, h, hl⟩
    · exact ⟨l.set j f, h, by rw [jsGet_set_ne l j i f _ hij]; exact hl⟩

/-- Generic fold invariance. -/
lemma foldl_inv {σ α : Type} (f : σ → α → σ) (P : σ → Prop) :
    ∀ (l : List α) (init : σ), P init →
      (∀ acc a, P acc → P (f acc a)) → P (l.foldl f init)
  | [], _, h, _ => h
  | a :: t, init, h, hstep => foldl_inv f P t (f init a) (hstep init a h) hstep

/-- The whole per-particle body preserves a truthy stored class of any
particle `i`. -/
lemma particleStep008_vc_inv {β : Type} [Add β] [Sub β] [Mul β] [Div β] [Neg β]
    (ops : JSOps β) (rnd : ℕ → ℚ) (opts : SimOptions)
    (playersL : List (ℕ × Player)) (n j i : ℕ) (p v : β × β)
    (col : β × β × β) (vc : Option (List β)) (ts : β) (k : ℕ)
    (baseVal : β) (hb : ops.truthy baseVal = true)
    (hvc : ∃ l, vc = some l ∧ jsGet l i (ops.ofRat 0) = baseVal) :
    ∃ l', (particleStep008 ops rnd opts playersL n j p v col vc ts k).2.2.1
        = some l' ∧ jsGet l' i (ops.ofRat 0) = baseVal := by
  have hfold := foldl_inv
    (fun (acc : (β × β) × Option (List β) × ℕ) (kv : ℕ × Player) =>
      playerForce008 ops rnd n kv.2 j p acc.1 acc.2.1 ts acc.2.2)
    (fun acc => ∃ l, acc.2.1 = some l ∧ jsGet l i (ops.ofRat 0) = baseVal)
    playersL
    ((centralGravity ops opts p
        (playersL.foldl (fun acc kv =>
          colorPrismForce ops rnd kv.2 p col acc.1 ts acc.2) (v, k)).1 ts),
     vc,
     (playersL.foldl (fun acc kv =>
        colorPrismForce ops rnd kv.2 p col acc.1 ts acc.2) (v, k)).2)
    hvc
    (by
      rintro acc kv ⟨l, hacc, hl⟩
      dsimp only
      rw [hacc]
      exact playerForce008_vc_inv ops rnd n j i kv.2 p acc.1 ts acc.2.2
        l baseVal hb hl)
  simpa only [particleStep008] using hfold

/-- A full `updatePhysics` step of the color-modulated variant keeps the
virtual-color array in existence and never changes a truthy entry. -/
lemma updatePhysics008_vc_inv {β : Type} [Add β] [Sub β] [Mul β] [Div β] [Neg β]
    (ops : JSOps β) (rnd : ℕ → ℚ) (dt : ℚ) (k : ℕ)
    (s : SimState β) (l : List β) (i : ℕ)
    (hvc : s.particleVirtualColors = some l)
    (ht : ops.truthy (jsGet l i (ops.ofRat 0)) = true) :
    ∃ l', (updatePhysics008 ops rnd dt k s).1.particleVirtualColors = some l' ∧
      jsGet l' i (ops.ofRat 0) = jsGet l i (ops.ofRat 0) := by
  simp only [updatePhysics008]
  refine foldl_inv _
    (fun (acc : (List (β × β) × List (β × β) × Option (List β)) × ℕ) =>
      ∃ l', acc.1.2.2 = some l' ∧
        jsGet l' i (ops.ofRat 0) = jsGet l i (ops.ofRat 0))
    (List.range s.particles.length)
    ((s.particles, s.velocities, s.particleVirtualColors), k)
    ⟨l, hvc, rfl⟩ ?_
  rintro acc j ⟨l', hacc, hl'⟩
  dsimp only
  exact particleStep008_vc_inv ops rnd s.options s.players
    s.particles.length j i
    (jsGet acc.1.1 j (ops.ofRat 0, ops.ofRat 0))
    (jsGet acc.1.2.1 j (ops.ofRat 0, ops.ofRat 0))
    (jsGet s.colors j (ops.ofRat 0, ops.ofRat 0, ops.ofRat 0))
    acc.1.2.2 (ops.ofRat (timeScale dt)) acc.2
    (jsGet l i (ops.ofRat 0)) ht ⟨l', hacc, hl'⟩

/-- C10: in the color-modulated variant, a particle whose lazily assigned
virtual color class is nonzero (truthy) keeps that class unchanged across
any physics step (hence across all subsequent steps), whereas a particle
whose stored class is 0 is re-assigned a fresh random class when it
encounters a prism interior: at the concrete state `c10Sim` (stored class
array `[0]`, the particle inside the default player's prism), one step
draws class 3 and stores it, overwriting the 0. -/
theorem c10_virtual_color_stability {β : Type} [Add β] [Sub β] [Mul β] [Div β] [Neg β]
    (ops : JSOps β) (rnd : ℕ → ℚ) (dt : ℚ) (k : ℕ)
    (s : SimState β) (l : List β) (i : ℕ)
    (hvc : s.particleVirtualColors = some l)
    (ht : ops.truthy (jsGet l i (ops.ofRat 0)) = true) :
    (∃ l', (updatePhysics008 ops rnd dt k s).1.particleVirtualColors = some l' ∧
       jsGet l' i (ops.ofRat 0) = jsGet l i (ops.ofRat 0)) ∧
    (c10Sim.particleVirtualColors = some [0] ∧
     (updatePhysics008 oneOps rndHalf 33 0 c10Sim).1.particleVirtualColors
       = some [3] ∧
     (3 : ℚ) ≠ 0) := by
  refine ⟨updatePhysics008_vc_inv ops rnd dt k s l i hvc ht, rfl, ?_, by norm_num⟩
  norm_num [updatePhysics008, particleStep008, colorPrismForce, centralGravity,
    playerForce008, vcFetch, boundaryCheck, damp, timeScale, oneOps, ratOps,
    rndHalf, c10Sim, addPlayer, mkOptions, jsOrQ, jsOrNat, newSimState, jsGet,
    List.getD, setKey, List.range, List.foldl]

/-- C10 witness: a state whose single particle has the stored class 2. -/
theorem c10_virtual_color_stability_witness :
    (({ c10Sim with particleVirtualColors := some [2] } : SimState ℚ).particleVirtualColors
        = some [(2 : ℚ)] ∧
     oneOps.truthy (jsGet [(2 : ℚ)] 0 (oneOps.ofRat 0)) = true) ∧
    (∃ l', (updatePhysics008 oneOps rndHalf 33 0
        { c10Sim with particleVirtualColors := some [2] }).1.particleVirtualColors
          = some l' ∧
       jsGet l' 0 (oneOps.ofRat 0) = jsGet [(2 : ℚ)] 0 (oneOps.ofRat 0)) :=
  ⟨⟨rfl, rfl⟩,
   (c10_virtual_color_stability oneOps rndHalf 33 0
      { c10Sim with particleVirtualColors := some [2] } [2] 0 rfl rfl).1⟩

/-! ## Claim C1: the bounded-and-finite-positions scenario -/

/-- C1 (divergence demonstration): in the color-modulated variant with the
exact `server.js` configuration and one player added with default
parameters (well at the origin), a particle sitting exactly at the origin
— a position the initializer produces when its inner-disc branch draws
radius 0 — has a non-finite (NaN) position after a single 33 ms physics
step: the color-dispersion block computes `dirX = toCenterX / centerDist`
with `centerDist = 0`, i.e. 0/0, and the NaN propagates through the
velocity into the position.  The boundary policy cannot repair it because
every comparison against NaN is false, so the position stays non-finite on
all later ticks, contradicting the claimed finiteness/bound. -/
theorem c1_nan_position_after_one_tick :
    (updatePhysics008 nanDemoOps rndHalf 33 0 c1Sim).1.particles
      = [(JsNum.nan, JsNum.nan)] := by
  norm_num [updatePhysics008, particleStep008, colorPrismForce, centralGravity,
    playerForce008, vcFetch, boundaryCheck, damp, timeScale, nanDemoOps, nanOps,
    rndHalf, c1Sim, addPlayer, mkOptions, jsOrQ, jsOrNat, serverJsOptions, jsGet,
    List.getD, setKey, List.range, List.foldl]

end Gravity

